import Mathlib

/-!
# Shukku List demo provisioning endpoint (`api/setup.js`)

A shallow embedding of the request handler of `api/setup.js` and of its helper
`clearDemoData`, followed by the properties of the reset-and-seed pipeline.

Modelling conventions.

* JavaScript values are `Value`s.  Every number the handler computes is an integer
  (`Date.now()` readings minus a constant offset, literal quantities, collection sizes)
  and stays below `2^53` in absolute value, where JS numbers are exact, so `Int` arithmetic
  coincides with the arithmetic of JS numbers.
* Everything outside the source file is an explicit input: the process environment, the
  number of already initialised SDK apps and the database are the `World`; the outcome of
  each call that leaves the file (`JSON.parse`, the SDK, the database, the clock) is read
  from `Externals`.
* The handler is written in the monad `M`: a state transformer over `St` whose result is
  either a value or a thrown error message.  A thrown error keeps the state reached so far,
  which is how database writes issued before a failure remain visible.
* Every call to the environment, the SDK or the database is appended to `St.ops`; console
  output is appended to `St.console`.
-/

namespace Shukku

/-! ## JavaScript values -/

/-- JavaScript values as far as the handler builds or inspects them.  `serverTimestamp` is
the sentinel object returned by `admin.firestore.FieldValue.serverTimestamp()`. -/
inductive Value where
  | undefined
  | null
  | bool (b : Bool)
  | num (n : Int)
  | str (s : String)
  | serverTimestamp
  | arr (xs : List Value)
  | obj (fields : List (String × Value))

namespace Value

mutual
/-- String conversion as performed by a template literal `${v}`. -/
def toStr : Value → String
  | .undefined => "undefined"
  | .null => "null"
  | .bool b => if b then "true" else "false"
  | .num n => toString n
  | .str s => s
  | .serverTimestamp => "[object Object]"
  | .arr xs => joinStr xs
  | .obj _ => "[object Object]"
termination_by structural v => v
/-- The text of `Array.prototype.join(",")`: `null` and `undefined` elements are empty. -/
def joinStr : List Value → String
  | [] => ""
  | v :: vs =>
    (match v with
      | .undefined => ""
      | .null => ""
      | w => toStr w)
    ++ (match vs with
      | [] => ""
      | _ :: _ => ",")
    ++ joinStr vs
termination_by structural vs => vs
end

/-- Own-property lookup `o.key` on an object value; when a key occurs twice the last
occurrence wins, as in an object literal.  Values that are not objects have none of the
keys the handler reads. -/
def get (v : Value) (key : String) : Value :=
  match v with
  | .obj fields => (fields.reverse.lookup key).getD .undefined
  | _ => .undefined

/-- Whether an object value has the own property `key`. -/
def has (v : Value) (key : String) : Bool :=
  match v with
  | .obj fields => (fields.lookup key).isSome
  | _ => false

/-- The elements of an array value. -/
def elems (v : Value) : List Value :=
  match v with
  | .arr xs => xs
  | _ => []

/-- The `.length` of an array or string value. -/
def length (v : Value) : Value :=
  match v with
  | .arr xs => .num xs.length
  | .str s => .num s.length
  | _ => .undefined

end Value

/-! ## Database, world and trace -/

/-- A collection: finitely many documents keyed by document identifier. -/
abbrev Collection := Finmap (fun _ : String => Value)

/-- A Firestore database: collection name to collection. -/
abbrev Database := String → Collection

/-- `db.collection(coll).doc(id).set(data)`: the document is replaced as a whole. -/
def Database.setDoc (db : Database) (coll id : String) (data : Value) : Database :=
  Function.update db coll ((db coll).insert id data)

/-- Deletion of `db.collection(coll).doc(id)`; deleting an absent document changes nothing. -/
def Database.deleteDoc (db : Database) (coll id : String) : Database :=
  Function.update db coll ((db coll).erase id)

/-- The `.size` of the snapshot returned by `db.collection(coll).get()`. -/
def Database.size (db : Database) (coll : String) : Nat :=
  (db coll).keys.card

/-- The calls that leave the source file. -/
inductive Op where
  /-- Reading `process.env.FIREBASE_SERVICE_ACCOUNT`. -/
  | readEnv
  /-- The call `admin.credential.cert(serviceAccount)`. -/
  | cert
  /-- The call `admin.initializeApp(...)` with the given `databaseURL`. -/
  | initializeApp (databaseURL : String)
  /-- The call `admin.firestore()`. -/
  | firestore
  /-- The call `db.batch()`. -/
  | batch
  /-- The call `batch.delete(db.collection(coll).doc(id))`. -/
  | batchDelete (coll id : String)
  /-- The call `batch.commit()`. -/
  | commit
  /-- The call `db.collection(coll).doc(id).set(...)`. -/
  | set (coll id : String)
  /-- The call `db.collection(coll).get()`. -/
  | get (coll : String)
deriving DecidableEq, Repr

/-- One line of console output. -/
inductive ConsoleLine where
  | log (text : String)
  | error (text : String)
deriving DecidableEq, Repr

/-- What the handler finds when it is invoked. -/
structure World where
  /-- The value of `process.env.FIREBASE_SERVICE_ACCOUNT`, `none` when it is not set. -/
  env : Option String
  /-- The value of `admin.apps.length`. -/
  apps : Nat
  /-- The contents of the database. -/
  db : Database

/-- The behaviour of everything the handler calls but does not define. -/
structure Externals where
  /-- The function `JSON.parse`: the parsed value, or the message of the error it throws. -/
  jsonParse : String → Except String Value
  /-- The message of the error a call throws, `none` when the call returns. -/
  fault : Op → Option String
  /-- When `batch.commit()` throws: which of the queued deletions took effect nevertheless.
  A batch is atomic, so a real database answers the same for all of them; the handler is
  analysed for every answer. -/
  applied : String → String → Bool
  /-- The reading returned by the `i`-th call of `Date.now()`, counted from `0`. -/
  now : Nat → Int
  /-- The text of `new Date().toISOString()` when the success response is built. -/
  isoNow : String

/-- The state threaded through a run. -/
structure St where
  env : Option String
  apps : Nat
  db : Database
  /-- The deletions queued in the `WriteBatch` of `clearDemoData`. -/
  batch : List (String × String)
  /-- The calls issued so far, oldest first. -/
  ops : List Op
  /-- The console output so far, oldest first. -/
  console : List ConsoleLine

/-- The result of a computation: a value, or a thrown error with its message. -/
inductive Result (α : Type) where
  | ok (a : α)
  | throw (message : String)

/-- Computations of the handler. -/
def M (α : Type) : Type := St → Result α × St

namespace M

/-- Return a value. -/
def ret {α : Type} (a : α) : M α := fun s => (.ok a, s)

/-- Sequencing: a thrown error skips the continuation and keeps the state. -/
def andThen {α β : Type} (m : M α) (f : α → M β) : M β := fun s =>
  match m s with
  | (.ok a, s1) => f a s1
  | (.throw e, s1) => (.throw e, s1)

/-- The statement `throw new Error(message)`. -/
def raise {α : Type} (message : String) : M α := fun s => (.throw message, s)

/-- The statement `try { m } catch (error) { handle error.message }`. -/
def tryCatch {α : Type} (m : M α) (handle : String → M α) : M α := fun s =>
  match m s with
  | (.ok a, s1) => (.ok a, s1)
  | (.throw e, s1) => handle e s1

/-- A loop `for (const a of xs) { body a }`, also `xs.forEach(body)`. -/
def forEach {α : Type} (xs : List α) (body : α → M Unit) : M Unit :=
  match xs with
  | [] => ret ()
  | a :: as => andThen (body a) (fun _ => forEach as body)

end M

instance : Monad M where
  pure := M.ret
  bind := M.andThen

/-! ## Primitive steps -/

/-- Record a call and throw if the environment makes it fail. -/
def call (x : Externals) (op : Op) : M Unit := fun s =>
  let s1 := { s with ops := s.ops ++ [op] }
  match x.fault op with
  | none => (.ok (), s1)
  | some e => (.throw e, s1)

/-- The statement `console.log(text)`. -/
def consoleLog (text : String) : M Unit := fun s =>
  (.ok (), { s with console := s.console ++ [.log text] })

/-- The statement `console.error(text)`. -/
def consoleError (text : String) : M Unit := fun s =>
  (.ok (), { s with console := s.console ++ [.error text] })

/-- The expression `process.env.FIREBASE_SERVICE_ACCOUNT`. -/
def readEnv : M (Option String) := fun s =>
  (.ok s.env, { s with ops := s.ops ++ [Op.readEnv] })

/-- The expression `admin.apps.length`. -/
def appsLength : M Nat := fun s => (.ok s.apps, s)

/-- The expression `JSON.parse(text)`. -/
def jsonParse (x : Externals) (text : String) : M Value := fun s =>
  match x.jsonParse text with
  | .ok v => (.ok v, s)
  | .error e => (.throw e, s)

/-- Property access `v.key`: a `TypeError` on `null` and `undefined`. -/
def getProp (v : Value) (key : String) : M Value :=
  match v with
  | .null => M.raise ("Cannot read properties of null (reading '" ++ key ++ "')")
  | .undefined => M.raise ("Cannot read properties of undefined (reading '" ++ key ++ "')")
  | w => M.ret (w.get key)

/-- The call `admin.initializeApp(...)`: on return one more app is registered. -/
def initializeApp (x : Externals) (databaseURL : String) : M Unit := fun s =>
  let s1 := { s with ops := s.ops ++ [Op.initializeApp databaseURL] }
  match x.fault (.initializeApp databaseURL) with
  | none => (.ok (), { s1 with apps := s.apps + 1 })
  | some e => (.throw e, s1)

/-- The call `db.batch()`: a fresh, empty batch. -/
def newBatch (x : Externals) : M Unit := fun s =>
  let s1 := { s with ops := s.ops ++ [Op.batch] }
  match x.fault .batch with
  | none => (.ok (), { s1 with batch := [] })
  | some e => (.throw e, s1)

/-- The call `batch.delete(db.collection(coll).doc(id))`: the deletion is queued. -/
def batchDelete (x : Externals) (coll id : String) : M Unit := fun s =>
  let s1 := { s with ops := s.ops ++ [Op.batchDelete coll id] }
  match x.fault (.batchDelete coll id) with
  | none => (.ok (), { s1 with batch := s.batch ++ [(coll, id)] })
  | some e => (.throw e, s1)

/-- Apply the deletions of `refs` selected by `keep` to a database. -/
def applyDeletes (keep : String → String → Bool) (refs : List (String × String))
    (db : Database) : Database :=
  refs.foldl (fun d r => if keep r.1 r.2 then d.deleteDoc r.1 r.2 else d) db

/-- The call `await batch.commit()`. -/
def batchCommit (x : Externals) : M Unit := fun s =>
  let s1 := { s with ops := s.ops ++ [Op.commit] }
  match x.fault .commit with
  | none => (.ok (), { s1 with db := applyDeletes (fun _ _ => true) s.batch s.db })
  | some e => (.throw e, { s1 with db := applyDeletes x.applied s.batch s.db })

/-- The call `await db.collection(coll).doc(id).set(data)`. -/
def setDoc (x : Externals) (coll id : String) (data : Value) : M Unit := fun s =>
  let s1 := { s with ops := s.ops ++ [Op.set coll id] }
  match x.fault (.set coll id) with
  | none => (.ok (), { s1 with db := s.db.setDoc coll id data })
  | some e => (.throw e, s1)

/-- The expression `(await db.collection(coll).get()).size`. -/
def collectionSize (x : Externals) (coll : String) : M Nat := fun s =>
  let s1 := { s with ops := s.ops ++ [Op.get coll] }
  match x.fault (.get coll) with
  | none => (.ok (s.db.size coll), s1)
  | some e => (.throw e, s1)

/-! ## The fixture catalog (lines 52-156) -/

/-- The first element of `demoUsers` (lines 54-62). -/
def giash : Value :=
  .obj
    [ ("uid", .str "giash_uid"),
      ("email", .str "giash@shukku.com"),
      ("name", .str "Giash"),
      ("tokens", .arr [.str "fcm_demo_giash"]),
      ("createdAt", .serverTimestamp),
      ("updatedAt", .serverTimestamp),
      ("avatar", .str "👨‍💻") ]

/-- The second element of `demoUsers` (lines 63-71). -/
def rina : Value :=
  .obj
    [ ("uid", .str "rina_uid"),
      ("email", .str "rina@shukku.com"),
      ("name", .str "Rina"),
      ("tokens", .arr [.str "fcm_demo_rina"]),
      ("createdAt", .serverTimestamp),
      ("updatedAt", .serverTimestamp),
      ("avatar", .str "👩‍💼") ]

/-- The constant `demoUsers`. -/
def demoUsers : List Value := [giash, rina]

/-- The array `demoPairs[0].items`.  The object literals are evaluated in source order, so
the twelve `Date.now()` calls receive the readings `now 0`, ..., `now 11`. -/
def demoItems (now : Nat → Int) : List Value :=
  [ .obj
      [ ("id", .str "1"),
        ("name", .str "Organic Milk"),
        ("qty", .num 2),
        ("done", .bool false),
        ("addedBy", .str "giash_uid"),
        ("category", .str "dairy"),
        ("note", .str "Get the organic one"),
        ("createdAt", .num (now 0 - 86400000)),
        ("updatedAt", .num (now 1 - 86400000)) ],
    .obj
      [ ("id", .str "2"),
        ("name", .str "Whole Wheat Bread"),
        ("qty", .num 1),
        ("done", .bool true),
        ("addedBy", .str "rina_uid"),
        ("category", .str "bakery"),
        ("createdAt", .num (now 2 - 43200000)),
        ("updatedAt", .num (now 3 - 3600000)) ],
    .obj
      [ ("id", .str "3"),
        ("name", .str "Fresh Eggs (Dozen)"),
        ("qty", .num 1),
        ("done", .bool false),
        ("addedBy", .str "giash_uid"),
        ("category", .str "dairy"),
        ("createdAt", .num (now 4 - 7200000)),
        ("updatedAt", .num (now 5 - 7200000)) ],
    .obj
      [ ("id", .str "4"),
        ("name", .str "Bananas"),
        ("qty", .num 6),
        ("done", .bool false),
        ("addedBy", .str "rina_uid"),
        ("category", .str "fruits"),
        ("note", .str "For morning smoothies"),
        ("createdAt", .num (now 6 - 3600000)),
        ("updatedAt", .num (now 7 - 3600000)) ],
    .obj
      [ ("id", .str "5"),
        ("name", .str "Coffee Beans"),
        ("qty", .num 1),
        ("done", .bool false),
        ("addedBy", .str "giash_uid"),
        ("category", .str "beverages"),
        ("note", .str "Dark roast preferred"),
        ("createdAt", .num (now 8 - 1800000)),
        ("updatedAt", .num (now 9 - 1800000)) ],
    .obj
      [ ("id", .str "6"),
        ("name", .str "Amazon Echo Dot"),
        ("qty", .num 1),
        ("done", .bool false),
        ("addedBy", .str "rina_uid"),
        ("category", .str "electronics"),
        ("link", .str "https://www.amazon.com/dp/B08N5WRWNW"),
        ("image", .str "https://images-na.ssl-images-amazon.com/images/I/71OZY035QKL._AC_SL1500_.jpg"),
        ("price", .str "$49.99"),
        ("createdAt", .num (now 10 - 900000)),
        ("updatedAt", .num (now 11 - 900000)) ] ]

/-- The only element of `demoPairs` (lines 76-155). -/
def giashRinaHome (now : Nat → Int) : Value :=
  .obj
    [ ("pairId", .str "giash_rina_home"),
      ("users", .arr [.str "giash_uid", .str "rina_uid"]),
      ("inviteCode", .str "729463"),
      ("listName", .str "Giash & Rina Home"),
      ("items", .arr (demoItems now)),
      ("settings", .obj [("notifications", .bool true), ("autoSort", .bool true)]),
      ("createdAt", .serverTimestamp),
      ("updatedAt", .serverTimestamp) ]

/-- The constant `demoPairs`. -/
def demoPairs (now : Nat → Int) : List Value := [giashRinaHome now]

/-! ## Responses -/

/-- An HTTP request, as far as the handler inspects it. -/
structure Request where
  method : String

/-- An HTTP response: the headers set, the status, and the JSON body (`none` after
`res.end()`). -/
structure Response where
  headers : List (String × String)
  status : Nat
  body : Option Value

/-- The three headers set by lines 6-8. -/
def corsHeaders : List (String × String) :=
  [ ("Access-Control-Allow-Origin", "*"),
    ("Access-Control-Allow-Methods", "GET, POST, OPTIONS"),
    ("Access-Control-Allow-Headers", "Content-Type") ]

/-- The message of the error thrown at lines 28-36. -/
def missingCredentialMessage : String :=
  "\nFIREBASE_SERVICE_ACCOUNT environment variable is missing.\n\nSetup Steps:\n1. Go to Firebase Console → Project Settings → Service Accounts\n2. Click \"Generate New Private Key\"\n3. Copy the entire JSON\n4. Add to Vercel: FIREBASE_SERVICE_ACCOUNT = \x7b \"type\": \"service_account\", ... \x7d\n      "

/-- The `help` text of lines 211-217. -/
def helpText : String :=
  "\nRequired Setup:\n1. Firebase Project: shukku-list\n2. Enable Authentication → Email/Password\n3. Create Firestore Database\n4. Add FIREBASE_SERVICE_ACCOUNT to Vercel\n      "

/-- The response of lines 12: `res.status(200).end()`. -/
def preflightResponse : Response :=
  { headers := corsHeaders, status := 200, body := none }

/-- The response of lines 17-20. -/
def methodNotAllowedResponse : Response :=
  { headers := corsHeaders,
    status := 405,
    body := some (.obj
      [ ("success", .bool false),
        ("error", .str "Use GET request to setup database") ]) }

/-- The response of lines 180-203. -/
def successResponse (project : Value) (usersCount pairsCount : Nat) (isoNow : String) :
    Response :=
  { headers := corsHeaders,
    status := 200,
    body := some (.obj
      [ ("success", .bool true),
        ("message", .str "Shukku List Database Setup Complete!"),
        ("data", .obj
          [ ("project", project),
            ("users", .num usersCount),
            ("pairs", .num pairsCount),
            ("demo", .obj
              [ ("couple", .str "Giash & Rina"),
                ("inviteCode", .str "729463"),
                ("users", .arr
                  [ .obj [("name", .str "Giash"), ("email", .str "giash@shukku.com"),
                      ("uid", .str "giash_uid")],
                    .obj [("name", .str "Rina"), ("email", .str "rina@shukku.com"),
                      ("uid", .str "rina_uid")] ]),
                ("items", .num 6) ]),
            ("nextSteps", .arr
              [ .str "Your main app can now connect to Firebase",
                .str "Test with the demo UIDs in your app",
                .str "Real users will be created through signup" ]) ]),
        ("timestamp", .str isoNow) ]) }

/-- The response of lines 208-218. -/
def failureResponse (message : String) : Response :=
  { headers := corsHeaders,
    status := 500,
    body := some (.obj
      [ ("success", .bool false),
        ("error", .str message),
        ("help", .str helpText) ]) }

/-! ## The handler -/

/-- The test `!v` on the value of an environment variable: unset and empty are falsy. -/
def falsy (v : Option String) : Bool :=
  match v with
  | none => true
  | some t => t == ""

/-- The call `JSON.parse(v)` on the value of an environment variable; an argument that is
not a string is converted to one first. -/
def parseEnv (x : Externals) (v : Option String) : M Value :=
  jsonParse x (v.getD "undefined")

/-- The function `clearDemoData` (lines 222-243). -/
def clearDemoData (x : Externals) : M Unit :=
  M.tryCatch
    (do
      newBatch x
      let users := ["giash_uid", "rina_uid"]
      M.forEach users (fun uid => batchDelete x "users" uid)
      let pairs := ["giash_rina_home"]
      M.forEach pairs (fun pairId => batchDelete x "pairs" pairId)
      batchCommit x
      consoleLog "   ✅ Cleared previous demo data")
    (fun _ => consoleLog "   ℹ️ No previous data to clear")

/-- Lines 26-50 of `handler`: the credential check and the SDK bootstrap.  Returns the
parsed `serviceAccount`. -/
def initFirebase (x : Externals) : M Value := do
  if falsy (← readEnv) then
    M.raise missingCredentialMessage
  let serviceAccount ← parseEnv x (← readEnv)
  if (← appsLength) == 0 then
    call x .cert
    let projectId ← getProp serviceAccount "project_id"
    initializeApp x ("https://" ++ projectId.toStr ++ ".firebaseio.com")
  call x .firestore
  pure serviceAccount

/-- Lines 161-172 of `handler`: the two loops that write the catalog. -/
def seed (x : Externals) : M Unit := do
  consoleLog "📝 Creating Giash & Rina users..."
  M.forEach demoUsers (fun user => do
    setDoc x "users" (user.get "uid").toStr user
    consoleLog ("   ✅ " ++ (user.get "avatar").toStr ++ " " ++ (user.get "name").toStr))
  consoleLog "🛍️ Creating shared shopping list..."
  M.forEach (demoPairs x.now) (fun pair => do
    setDoc x "pairs" (pair.get "pairId").toStr pair
    consoleLog ("   ✅ List: \"" ++ (pair.get "listName").toStr ++ "\"")
    consoleLog ("   📋 " ++ ((pair.get "items").length).toStr ++ " items added"))

/-- Lines 158-203 of `handler`: reset, seed, verification and the success response. -/
def pipeline (x : Externals) (serviceAccount : Value) : M Response := do
  consoleLog "🧹 Cleaning previous demo data..."
  clearDemoData x
  seed x
  let usersCount ← collectionSize x "users"
  let pairsCount ← collectionSize x "pairs"
  consoleLog "🎉 Setup completed successfully!"
  let project ← getProp serviceAccount "project_id"
  pure (successResponse project usersCount pairsCount x.isoNow)

/-- The body of the `try` block of `handler` (lines 26-203). -/
def setup (x : Externals) : M Response := do
  let serviceAccount ← initFirebase x
  pipeline x serviceAccount

/-- The function `handler` (lines 4-220).  The three headers are set before anything else,
so every response carries them. -/
def handler (x : Externals) (req : Request) : M Response :=
  if req.method = "OPTIONS" then
    pure preflightResponse
  else if req.method ≠ "GET" then
    pure methodNotAllowedResponse
  else do
    consoleLog "🚀 Starting Shukku List Firebase Setup..."
    M.tryCatch (setup x) (fun message => do
      consoleError ("❌ Setup failed: " ++ message)
      pure (failureResponse message))

/-- The state in which an invocation starts. -/
def World.start (w : World) : St :=
  { env := w.env, apps := w.apps, db := w.db, batch := [], ops := [], console := [] }

/-- One invocation of the endpoint: the handler run from the given world. -/
def run (x : Externals) (req : Request) (w : World) : Result Response × St :=
  handler x req w.start

/-- The world an invocation leaves behind for the next one. -/
def St.world (s : St) : World :=
  { env := s.env, apps := s.apps, db := s.db }

/-! ## Vocabulary of the statements -/

/-- The calls made by the credential check and the SDK bootstrap. -/
def isBootOp : Op → Bool
  | .readEnv => true
  | .cert => true
  | .initializeApp _ => true
  | .firestore => true
  | .batch => false
  | .batchDelete _ _ => false
  | .commit => false
  | .set _ _ => false
  | .get _ => false

/-- The calls made by `clearDemoData`. -/
def isResetOp : Op → Bool
  | .readEnv => false
  | .cert => false
  | .initializeApp _ => false
  | .firestore => false
  | .batch => true
  | .batchDelete _ _ => true
  | .commit => true
  | .set _ _ => false
  | .get _ => false

/-- The three fixture writes, in the order in which the handler issues them. -/
def writeOps : List Op :=
  [.set "users" "giash_uid", .set "users" "rina_uid", .set "pairs" "giash_rina_home"]

/-- The two count queries, in the order in which the handler issues them. -/
def countOps : List Op := [.get "users", .get "pairs"]

/-- Each of the three fixture writes returns. -/
def WritesReturn (x : Externals) : Prop := ∀ op ∈ writeOps, x.fault op = none

/-- Each of the two count queries returns. -/
def CountsReturn (x : Externals) : Prop := ∀ op ∈ countOps, x.fault op = none

/-- The documents the catalog addresses: collection and identifier. -/
def fixtureRefs : List (String × String) :=
  [("users", "giash_uid"), ("users", "rina_uid"), ("pairs", "giash_rina_home")]

/-- The database `db` after the three fixture writes of lines 162-172 have returned. -/
def seeded (now : Nat → Int) (db : Database) : Database :=
  ((db.setDoc "users" "giash_uid" giash).setDoc "users" "rina_uid" rina).setDoc
    "pairs" "giash_rina_home" (giashRinaHome now)

/-- The database `db1` differs from `db` at most by the absence of fixture documents. -/
def ResetRel (db db1 : Database) : Prop :=
  ∀ coll id, (db1 coll).lookup id = (db coll).lookup id ∨
    ((coll, id) ∈ fixtureRefs ∧ (db1 coll).lookup id = none)

/-- Two environments that behave alike except in what `clearDemoData` observes: the
outcome of `db.batch()`, of each `batch.delete`, of `batch.commit()`, and which deletions a
failed commit applied. -/
def SameExceptReset (x y : Externals) : Prop :=
  x.jsonParse = y.jsonParse ∧ x.now = y.now ∧ x.isoNow = y.isoNow ∧
    ∀ op, isResetOp op = false → x.fault op = y.fault op

/-- The bootstrap of lines 26-50 goes through in world `w` and yields `serviceAccount`: the
variable is set and not empty, its text parses, the SDK calls return, and when the SDK is
initialised the parsed value has properties to read. -/
def Bootstraps (x : Externals) (w : World) (serviceAccount : Value) : Prop :=
  (∃ text, w.env = some text ∧ text ≠ "" ∧ x.jsonParse text = .ok serviceAccount) ∧
    (w.apps = 0 → x.fault .cert = none ∧
      serviceAccount ≠ .null ∧ serviceAccount ≠ .undefined ∧
      x.fault (.initializeApp
        ("https://" ++ (serviceAccount.get "project_id").toStr ++ ".firebaseio.com")) = none) ∧
    x.fault .firestore = none

/-- The credential is usable in world `w`: the bootstrap goes through and the parsed
`serviceAccount` is an actual value, so that its `project_id` can be read. -/
def UsableCredential (x : Externals) (w : World) (serviceAccount : Value) : Prop :=
  Bootstraps x w serviceAccount ∧ serviceAccount ≠ .null ∧ serviceAccount ≠ .undefined

/-- The state in which the `try` block of a `GET` run is entered. -/
def World.entered (w : World) : St :=
  { w.start with console := [.log "🚀 Starting Shukku List Firebase Setup..."] }

/-- The three fixture documents in the order of their writes: collection, identifier,
content. -/
def fixtureDocs (now : Nat → Int) : List (String × String × Value) :=
  [ ("users", "giash_uid", giash),
    ("users", "rina_uid", rina),
    ("pairs", "giash_rina_home", giashRinaHome now) ]

/-- Sample environment: every call returns, the credential parses to an object with a
`project_id`, and the clock stands still. -/
def Sample.externals : Externals :=
  { jsonParse := fun _ => .ok (.obj [("project_id", .str "shukku-list")]),
    fault := fun _ => none,
    applied := fun _ _ => false,
    now := fun _ => 1700000000000,
    isoNow := "2023-11-14T22:13:20.000Z" }

/-- Sample world: the credential is set, the SDK is not initialised, the database is
empty. -/
def Sample.world : World :=
  { env := some "credential", apps := 0, db := fun _ => ∅ }

/-- Sample environment in which the given call fails with the given message and every other
call returns. -/
def Sample.failing (op : Op) (message : String) : Externals :=
  { Sample.externals with fault := fun o => if o = op then some message else none }

/-- Sample world with residue: a stale document at `users/giash_uid` and an unrelated
document at `users/mina_uid`. -/
def Sample.populated : World :=
  { env := some "credential",
    apps := 0,
    db := fun coll =>
      if coll = "users" then
        ((∅ : Collection).insert "giash_uid"
          (.obj [("uid", .str "giash_uid"), ("stale", .bool true)])).insert "mina_uid"
          (.obj [("name", .str "Mina")])
      else ∅ }

/-- Sample environment in which the credential text `null` parses to `null` and every call
returns. -/
def Sample.nullCredential : Externals :=
  { Sample.externals with jsonParse := fun _ => .ok .null }

/-- Sample world in which the credential text is `null` and the SDK is already
initialised. -/
def Sample.initialised : World :=
  { env := some "null", apps := 1, db := fun _ => ∅ }

/-- Sample environment in which `batch.commit()` throws after the deletion of
`users/rina_uid` alone took effect. -/
def Sample.partialReset : Externals :=
  { Sample.externals with
    fault := fun o => if o = .commit then some "DEADLINE_EXCEEDED" else none,
    applied := fun coll id => coll == "users" && id == "rina_uid" }

/-! ## Auxiliary lemmas -/

@[simp]
theorem M.bind_def {α β : Type} (m : M α) (f : α → M β) : (m >>= f) = M.andThen m f := rfl

@[simp]
theorem M.pure_def {α : Type} (a : α) : (pure a : M α) = M.ret a := rfl

attribute [simp] M.andThen M.ret M.raise M.tryCatch M.forEach readEnv parseEnv jsonParse
  appsLength call initializeApp consoleLog consoleError newBatch batchDelete batchCommit setDoc
  collectionSize

theorem giash_uid : (giash.get "uid").toStr = "giash_uid" := by
  simp [giash, Value.get, List.lookup, Value.toStr]

theorem rina_uid : (rina.get "uid").toStr = "rina_uid" := by
  simp [rina, Value.get, List.lookup, Value.toStr]

theorem giashRinaHome_pairId (now : Nat → Int) :
    ((giashRinaHome now).get "pairId").toStr = "giash_rina_home" := by
  simp [giashRinaHome, Value.get, List.lookup, Value.toStr]

theorem lookup_setDoc (db : Database) (c i coll id : String) (v : Value) :
    ((db.setDoc c i v) coll).lookup id =
      if coll = c ∧ id = i then some v else (db coll).lookup id := by
  unfold Database.setDoc
  by_cases hc : coll = c
  · subst hc
    by_cases hi : id = i
    · subst hi; simp
    · simp [hi, Finmap.lookup_insert_of_ne _ hi]
  · simp [Function.update_noteq hc, hc]

theorem lookup_deleteDoc (db : Database) (c i coll id : String) :
    ((db.deleteDoc c i) coll).lookup id =
      if coll = c ∧ id = i then none else (db coll).lookup id := by
  unfold Database.deleteDoc
  by_cases hc : coll = c
  · subst hc
    by_cases hi : id = i
    · subst hi; simp
    · simp [hi, Finmap.lookup_erase_ne hi]
  · simp [Function.update_noteq hc, hc]

theorem Database.ext_lookup {db db1 : Database}
    (h : ∀ coll id, (db coll).lookup id = (db1 coll).lookup id) : db = db1 :=
  funext fun coll => Finmap.ext_lookup (h coll)

theorem lookup_seeded (now : Nat → Int) (db : Database) (coll id : String) :
    ((seeded now db) coll).lookup id =
      if coll = "pairs" ∧ id = "giash_rina_home" then some (giashRinaHome now)
      else if coll = "users" ∧ id = "rina_uid" then some rina
      else if coll = "users" ∧ id = "giash_uid" then some giash
      else (db coll).lookup id := by
  simp only [seeded, lookup_setDoc]

theorem ResetRel.refl (db : Database) : ResetRel db db := fun _ _ => Or.inl rfl

theorem seeded_of_resetRel (now : Nat → Int) {db db1 : Database} (h : ResetRel db db1) :
    seeded now db1 = seeded now db := by
  apply Database.ext_lookup
  intro coll id
  simp only [lookup_seeded]
  split
  · rfl
  split
  · rfl
  split
  · rfl
  rcases h coll id with h1 | ⟨hmem, _⟩
  · exact h1
  · simp only [fixtureRefs, List.mem_cons, Prod.mk.injEq, List.mem_singleton] at hmem
    rcases hmem with ⟨hc, hi⟩ | ⟨hc, hi⟩ | ⟨hc, hi⟩ | hmem
    · simp_all
    · simp_all
    · simp_all
    · simp at hmem

theorem seeded_seeded (now : Nat → Int) (db : Database) :
    seeded now (seeded now db) = seeded now db := by
  apply Database.ext_lookup
  intro coll id
  simp only [lookup_seeded]
  split
  · rfl
  split
  · rfl
  split
  · rfl
  rfl

theorem ResetRel.applyDeletes (keep : String → String → Bool) (refs : List (String × String))
    (hrefs : ∀ r ∈ refs, r ∈ fixtureRefs) (db0 db : Database) (h : ResetRel db0 db) :
    ResetRel db0 (applyDeletes keep refs db) := by
  induction refs generalizing db with
  | nil => simpa [Shukku.applyDeletes] using h
  | cons r rs ih =>
    show ResetRel db0
      (Shukku.applyDeletes keep rs (if keep r.1 r.2 then db.deleteDoc r.1 r.2 else db))
    apply ih (fun r hr => hrefs r (List.mem_cons_of_mem _ hr))
    split
    · intro coll id
      rw [lookup_deleteDoc]
      split
      · rename_i hci
        right
        refine ⟨?_, rfl⟩
        have := hrefs r (List.mem_cons_self _ _)
        rcases hci with ⟨rfl, rfl⟩
        exact this
      · exact h coll id
    · exact h

theorem entered_env (w : World) : w.entered.env = w.env := rfl

theorem entered_apps (w : World) : w.entered.apps = w.apps := rfl

theorem entered_db (w : World) : w.entered.db = w.db := rfl

theorem entered_ops (w : World) : w.entered.ops = [] := rfl

theorem entered_world (w : World) : w.entered.world = w := rfl

/-- `clearDemoData` always returns; it leaves the environment and the app registry alone,
removes at most fixture documents, and issues only reset calls, `db.batch()` first. -/
theorem clearDemoData_spec (x : Externals) (s : St) :
    ∃ s1 l, clearDemoData x s = (.ok (), s1) ∧ s1.env = s.env ∧ s1.apps = s.apps ∧
      ResetRel s.db s1.db ∧ s1.ops = s.ops ++ .batch :: l ∧ (∀ op ∈ l, isResetOp op = true) := by
  have hA := fun keep refs h => ResetRel.applyDeletes keep refs h s.db s.db (ResetRel.refl _)
  simp only [clearDemoData, M.tryCatch, M.bind_def, M.andThen, newBatch, M.forEach, batchDelete,
    batchCommit, consoleLog, M.ret]
  cases h1 : x.fault .batch <;> simp [isResetOp, ResetRel.refl]
  cases h2 : x.fault (.batchDelete "users" "giash_uid") <;> simp [isResetOp, ResetRel.refl]
  cases h3 : x.fault (.batchDelete "users" "rina_uid") <;> simp [isResetOp, ResetRel.refl]
  cases h4 : x.fault (.batchDelete "pairs" "giash_rina_home") <;>
    simp [isResetOp, ResetRel.refl]
  cases h5 : x.fault .commit <;> simp [isResetOp, ResetRel.refl]
  all_goals
    apply hA
    simp [fixtureRefs]

/-- The four ways in which the seed stage ends. -/
theorem seed_cases (x : Externals) (s : St) :
    (∃ e s1, x.fault (.set "users" "giash_uid") = some e ∧ seed x s = (.throw e, s1) ∧
        s1.db = s.db ∧ s1.ops = s.ops ++ [.set "users" "giash_uid"]) ∨
    (∃ e s1, x.fault (.set "users" "giash_uid") = none ∧
        x.fault (.set "users" "rina_uid") = some e ∧ seed x s = (.throw e, s1) ∧
        s1.db = s.db.setDoc "users" "giash_uid" giash ∧
        s1.ops = s.ops ++ [.set "users" "giash_uid", .set "users" "rina_uid"]) ∨
    (∃ e s1, x.fault (.set "users" "giash_uid") = none ∧
        x.fault (.set "users" "rina_uid") = none ∧
        x.fault (.set "pairs" "giash_rina_home") = some e ∧ seed x s = (.throw e, s1) ∧
        s1.db = (s.db.setDoc "users" "giash_uid" giash).setDoc "users" "rina_uid" rina ∧
        s1.ops = s.ops ++ writeOps) ∨
    (∃ s1, x.fault (.set "users" "giash_uid") = none ∧
        x.fault (.set "users" "rina_uid") = none ∧
        x.fault (.set "pairs" "giash_rina_home") = none ∧ seed x s = (.ok (), s1) ∧
        s1.db = seeded x.now s.db ∧ s1.ops = s.ops ++ writeOps) := by
  simp only [seed, M.bind_def, M.andThen, M.forEach, demoUsers, demoPairs, setDoc, consoleLog,
    M.ret, giash_uid, rina_uid, giashRinaHome_pairId, writeOps, seeded]
  cases h1 : x.fault (.set "users" "giash_uid") <;> simp
  cases h2 : x.fault (.set "users" "rina_uid") <;> simp
  cases h3 : x.fault (.set "pairs" "giash_rina_home") <;> simp

theorem getProp_of_ne (v : Value) (key : String) (h1 : v ≠ .null) (h2 : v ≠ .undefined) :
    getProp v key = M.ret (v.get key) := by
  cases v <;> simp_all [getProp]

theorem getProp_cases (v : Value) (key : String) :
    (∃ e, (v = .null ∨ v = .undefined) ∧ getProp v key = M.raise e) ∨
    (v ≠ .null ∧ v ≠ .undefined ∧ getProp v key = M.ret (v.get key)) := by
  cases v <;> simp [getProp]

theorem raise_injective {α : Type} {e e1 : String} (h : (M.raise e : M α) = M.raise e1) :
    e = e1 := by
  have h2 := congrFun h ⟨none, 0, fun _ => ∅, [], [], []⟩
  simp only [M.raise, Prod.mk.injEq, Result.throw.injEq, and_true] at h2
  exact h2

/-- The two ways in which the bootstrap ends. -/
theorem initFirebase_cases (x : Externals) (s : St) :
    (∃ e s1 l, initFirebase x s = (.throw e, s1) ∧ s1.db = s.db ∧ s1.ops = s.ops ++ l ∧
        (∀ op ∈ l, isBootOp op = true)) ∨
    (∃ sa s1 l, initFirebase x s = (.ok sa, s1) ∧ s1.db = s.db ∧ s1.ops = s.ops ++ l ∧
        (∀ op ∈ l, isBootOp op = true) ∧ Bootstraps x s.world sa) := by
  simp only [initFirebase, Bootstraps, St.world]
  cases henv : s.env with
  | none => simp [henv, falsy, isBootOp, and_assoc]
  | some t =>
    by_cases ht : t = ""
    · simp [henv, falsy, ht, isBootOp, and_assoc]
    · have hf : falsy (some t) = false := by simp [falsy, ht]
      cases hp : x.jsonParse t with
      | error e => simp [henv, hf, hp, isBootOp, and_assoc]
      | ok sa =>
        by_cases ha : s.apps = 0
        · cases hc : x.fault .cert with
          | some e => simp [henv, hf, hp, ha, hc, isBootOp, and_assoc]
          | none =>
            rcases getProp_cases sa "project_id" with ⟨e, _, hg⟩ | ⟨hn, hu, hg⟩
            · simp [henv, hf, hp, ha, hc, hg, isBootOp, and_assoc]
            · cases hi : x.fault
                (.initializeApp
                  ("https://" ++ (sa.get "project_id").toStr ++ ".firebaseio.com")) with
              | some e => simp [henv, hf, hp, ha, hc, hg, hi, isBootOp, and_assoc]
              | none =>
                cases hfs : x.fault .firestore <;>
                  simp [henv, hf, hp, ha, hc, hg, hi, hfs, hn, hu, ht, isBootOp, and_assoc]
        · cases hfs : x.fault .firestore <;>
            simp [henv, hf, hp, ha, hfs, ht, isBootOp, and_assoc]

theorem initFirebase_ok (x : Externals) (s : St) (sa : Value) (h : Bootstraps x s.world sa) :
    ∃ s1 l, initFirebase x s = (.ok sa, s1) ∧ s1.db = s.db ∧ s1.ops = s.ops ++ l ∧
      (∀ op ∈ l, isBootOp op = true) := by
  obtain ⟨⟨t, henv, ht, hparse⟩, hinit, hfs⟩ := h
  simp only [St.world] at henv hinit
  have hf : falsy (some t) = false := by simp [falsy, ht]
  simp only [initFirebase]
  by_cases ha : s.apps = 0
  · obtain ⟨hc, hn, hu, hi⟩ := hinit ha
    simp [hf, henv, hparse, ha, hc, getProp_of_ne sa _ hn hu, hi, hfs, isBootOp]
  · simp [hf, henv, hparse, ha, hfs, isBootOp]

/-- The bootstrap does not observe what the reset observes. -/
theorem initFirebase_congr (x y : Externals) (h : SameExceptReset x y) (s : St) :
    initFirebase x s = initFirebase y s := by
  obtain ⟨hparse, -, -, hfault⟩ := h
  have h1 : x.fault .cert = y.fault .cert := hfault _ rfl
  have h2 : ∀ u, x.fault (.initializeApp u) = y.fault (.initializeApp u) := fun u => hfault _ rfl
  have h3 : x.fault .firestore = y.fault .firestore := hfault _ rfl
  have hc1 : call x .cert = call y .cert := by
    funext s; simp [h1]
  have hc3 : call x .firestore = call y .firestore := by
    funext s; simp [h3]
  have hi : ∀ u, initializeApp x u = initializeApp y u := by
    intro u; funext s; simp [h2]
  have hj : ∀ t, jsonParse x t = jsonParse y t := by
    intro t; funext s; simp [hparse]
  simp only [initFirebase, parseEnv, hc1, hc3, hi, hj]

/-- The seven ways in which the pipeline ends, by the first call after the reset that
fails.  In each of them `db0` is the database the reset left and `l` the calls it made. -/
theorem pipeline_cases (x : Externals) (sa : Value) (s : St) :
    ∃ db0 l, ResetRel s.db db0 ∧ (∀ op ∈ l, isResetOp op = true) ∧ Op.batch ∈ l ∧
      ((∃ e s1, x.fault (.set "users" "giash_uid") = some e ∧
          pipeline x sa s = (.throw e, s1) ∧ s1.db = db0 ∧
          s1.ops = s.ops ++ l ++ [.set "users" "giash_uid"]) ∨
      (∃ e s1, x.fault (.set "users" "giash_uid") = none ∧
          x.fault (.set "users" "rina_uid") = some e ∧
          pipeline x sa s = (.throw e, s1) ∧
          s1.db = db0.setDoc "users" "giash_uid" giash ∧
          s1.ops = s.ops ++ l ++ [.set "users" "giash_uid", .set "users" "rina_uid"]) ∨
      (∃ e s1, x.fault (.set "users" "giash_uid") = none ∧
          x.fault (.set "users" "rina_uid") = none ∧
          x.fault (.set "pairs" "giash_rina_home") = some e ∧
          pipeline x sa s = (.throw e, s1) ∧
          s1.db = (db0.setDoc "users" "giash_uid" giash).setDoc "users" "rina_uid" rina ∧
          s1.ops = s.ops ++ l ++ writeOps) ∨
      (∃ e s1, WritesReturn x ∧ x.fault (.get "users") = some e ∧
          pipeline x sa s = (.throw e, s1) ∧ s1.db = seeded x.now s.db ∧
          s1.ops = s.ops ++ l ++ writeOps ++ [.get "users"]) ∨
      (∃ e s1, WritesReturn x ∧ x.fault (.get "users") = none ∧
          x.fault (.get "pairs") = some e ∧
          pipeline x sa s = (.throw e, s1) ∧ s1.db = seeded x.now s.db ∧
          s1.ops = s.ops ++ l ++ writeOps ++ countOps) ∨
      (∃ e s1, WritesReturn x ∧ CountsReturn x ∧ (sa = .null ∨ sa = .undefined) ∧
          getProp sa "project_id" = M.raise e ∧
          pipeline x sa s = (.throw e, s1) ∧ s1.db = seeded x.now s.db ∧
          s1.ops = s.ops ++ l ++ writeOps ++ countOps) ∨
      (∃ s1, WritesReturn x ∧ CountsReturn x ∧ sa ≠ .null ∧ sa ≠ .undefined ∧
          pipeline x sa s =
            (.ok (successResponse (sa.get "project_id") ((seeded x.now s.db).size "users")
              ((seeded x.now s.db).size "pairs") x.isoNow), s1) ∧
          s1.db = seeded x.now s.db ∧ s1.ops = s.ops ++ l ++ writeOps ++ countOps)) := by
  simp only [pipeline, M.bind_def, M.andThen, consoleLog]
  obtain ⟨s1, l, hclear, -, -, hrel, hops, hl⟩ := clearDemoData_spec x
    { s with console := s.console ++ [.log "🧹 Cleaning previous demo data..."] }
  simp only at hrel hops
  have hl2 : ∀ op ∈ Op.batch :: l, isResetOp op = true := by
    intro op hop
    rcases List.mem_cons.1 hop with rfl | h
    · rfl
    · exact hl op h
  refine ⟨s1.db, .batch :: l, hrel, hl2, List.mem_cons_self _ _, ?_⟩
  rw [hclear]
  simp only
  have hseeded := seeded_of_resetRel x.now hrel
  rcases seed_cases x s1 with ⟨e, s2, h1, hseed, hdb, hops2⟩ | ⟨e, s2, h1, h2, hseed, hdb, hops2⟩ |
    ⟨e, s2, h1, h2, h3, hseed, hdb, hops2⟩ | ⟨s2, h1, h2, h3, hseed, hdb, hops2⟩
  · left
    exact ⟨e, s2, h1, by simp [hseed], hdb, by simp [hops2, hops]⟩
  · right; left
    exact ⟨e, s2, h1, h2, by simp [hseed], hdb, by simp [hops2, hops]⟩
  · right; right; left
    exact ⟨e, s2, h1, h2, h3, by simp [hseed], hdb, by simp [hops2, hops]⟩
  · right; right; right
    have hw : WritesReturn x := by simp [WritesReturn, writeOps, h1, h2, h3]
    rw [hseed]
    simp only [collectionSize, M.ret, M.pure_def]
    cases hg1 : x.fault (.get "users") with
    | some e =>
      left
      exact ⟨e, _, hw, rfl, rfl, by simp [hdb, hseeded], by simp [hops2, hops]⟩
    | none =>
      right
      cases hg2 : x.fault (.get "pairs") with
      | some e =>
        left
        exact ⟨e, _, hw, rfl, rfl, rfl, by simp [hdb, hseeded],
          by simp [hops2, hops, countOps]⟩
      | none =>
        right
        have hc : CountsReturn x := by simp [CountsReturn, countOps, hg1, hg2]
        rcases getProp_cases sa "project_id" with ⟨e, hsa, hg⟩ | ⟨hn, hu, hg⟩
        · left
          refine ⟨e, { s2 with
            ops := s2.ops ++ [.get "users", .get "pairs"],
            console := s2.console ++ [.log "🎉 Setup completed successfully!"] },
            hw, hc, hsa, hg, ?_, ?_, ?_⟩
          · simp [hg]
          · simp [hdb, hseeded]
          · simp [hops2, hops, countOps]
        · right
          simp [hg, hw, hc, hn, hu, hdb, hseeded, hops2, hops, countOps, and_assoc]

/-- With returning writes and counts, the response and the final database of the pipeline
do not depend on what the reset observes. -/
theorem pipeline_congr (x y : Externals) (h : SameExceptReset x y) (hw : WritesReturn x)
    (hc : CountsReturn x) (sa : Value) (s : St) :
    (pipeline x sa s).1 = (pipeline y sa s).1 ∧
      (pipeline x sa s).2.db = (pipeline y sa s).2.db := by
  obtain ⟨-, hnow, hiso, hfault⟩ := h
  have hwy : WritesReturn y := fun op hop => by
    rw [← hfault op (by revert hop; simp only [writeOps]; simp; rintro (rfl | rfl | rfl) <;> rfl)]
    exact hw op hop
  have hcy : CountsReturn y := fun op hop => by
    rw [← hfault op (by revert hop; simp only [countOps]; simp; rintro (rfl | rfl) <;> rfl)]
    exact hc op hop
  have key : ∀ z : Externals, WritesReturn z → CountsReturn z →
      ((∃ e s1, getProp sa "project_id" = M.raise e ∧ pipeline z sa s = (.throw e, s1) ∧
          s1.db = seeded z.now s.db) ∨
        (∃ s1, sa ≠ .null ∧ sa ≠ .undefined ∧
          pipeline z sa s =
            (.ok (successResponse (sa.get "project_id") ((seeded z.now s.db).size "users")
              ((seeded z.now s.db).size "pairs") z.isoNow), s1) ∧
          s1.db = seeded z.now s.db)) := by
    intro z hwz hcz
    have h1 := hwz (.set "users" "giash_uid") (by simp [writeOps])
    have h2 := hwz (.set "users" "rina_uid") (by simp [writeOps])
    have h3 := hwz (.set "pairs" "giash_rina_home") (by simp [writeOps])
    have h4 := hcz (.get "users") (by simp [countOps])
    have h5 := hcz (.get "pairs") (by simp [countOps])
    obtain ⟨db0, l, -, -, -, hcases⟩ := pipeline_cases z sa s
    rcases hcases with ⟨e, s2, h, -⟩ | ⟨e, s2, -, h, -⟩ | ⟨e, s2, -, -, h, -⟩ |
      ⟨e, s2, -, h, -⟩ | ⟨e, s2, -, -, h, -⟩ | ⟨e, s2, -, -, -, hg, hp, hd, -⟩ |
      ⟨s2, -, -, hn, hu, hp, hd, -⟩
    · simp [h1] at h
    · simp [h2] at h
    · simp [h3] at h
    · simp [h4] at h
    · simp [h5] at h
    · exact Or.inl ⟨e, s2, hg, hp, hd⟩
    · exact Or.inr ⟨s2, hn, hu, hp, hd⟩
  rcases key x hw hc with ⟨e, s1, hg, hp, hd⟩ | ⟨s1, hn, hu, hp, hd⟩ <;>
    rcases key y hwy hcy with ⟨e2, s2, hg2, hp2, hd2⟩ | ⟨s2, hn2, hu2, hp2, hd2⟩
  · have := raise_injective (hg.symm.trans hg2)
    simp [hp, hp2, hd, hd2, this, hnow]
  · rw [getProp_of_ne sa _ hn2 hu2] at hg
    have := congrFun hg ⟨none, 0, fun _ => ∅, [], [], []⟩
    simp [M.ret, M.raise] at this
  · rw [getProp_of_ne sa _ hn hu] at hg2
    have := congrFun hg2 ⟨none, 0, fun _ => ∅, [], [], []⟩
    simp [M.ret, M.raise] at this
  · simp [hp, hp2, hd, hd2, hnow, hiso]

/-- A `GET` run is the `try` block followed by the `catch` clause. -/
theorem run_get (x : Externals) (w : World) :
    (run x ⟨"GET"⟩ w).1 =
        .ok (match (setup x w.entered).1 with
          | .ok r => r
          | .throw e => failureResponse e) ∧
      (run x ⟨"GET"⟩ w).2.db = (setup x w.entered).2.db ∧
      (run x ⟨"GET"⟩ w).2.ops = (setup x w.entered).2.ops := by
  simp only [run, handler, World.entered, World.start]
  simp
  generalize setup x _ = r
  rcases r with ⟨_ | _, _⟩ <;> simp

/-- With returning writes and counts, the response and the final database of a `GET` run do
not depend on what the reset observes. -/
theorem run_get_congr (x y : Externals) (h : SameExceptReset x y) (hw : WritesReturn x)
    (hc : CountsReturn x) (w : World) :
    (run x ⟨"GET"⟩ w).1 = (run y ⟨"GET"⟩ w).1 ∧
      (run x ⟨"GET"⟩ w).2.db = (run y ⟨"GET"⟩ w).2.db := by
  obtain ⟨hx, hdx, -⟩ := run_get x w
  obtain ⟨hy, hdy, -⟩ := run_get y w
  rw [hx, hy, hdx, hdy]
  simp only [setup, M.bind_def, M.andThen, ← initFirebase_congr x y h]
  rcases hinit : initFirebase x w.entered with ⟨_ | _, s1⟩
  · obtain ⟨h1, h2⟩ := pipeline_congr x y h hw hc _ s1
    simp only
    rw [h1, h2]
    exact ⟨rfl, rfl⟩
  · simp

/-- The eight ways in which a `GET` run ends: the bootstrap fails, or the pipeline ends in
one of its seven ways.  `pre` is the trace of the bootstrap and of the reset, `db0` the
database the reset left. -/
theorem run_get_cases (x : Externals) (w : World) :
    (∃ e, (run x ⟨"GET"⟩ w).1 = .ok (failureResponse e) ∧ (run x ⟨"GET"⟩ w).2.db = w.db ∧
        (∀ op ∈ (run x ⟨"GET"⟩ w).2.ops, isBootOp op = true)) ∨
    (∃ sa pre db0, Bootstraps x w sa ∧
      (∀ op ∈ pre, isBootOp op = true ∨ isResetOp op = true) ∧ Op.batch ∈ pre ∧
      ResetRel w.db db0 ∧
      ((∃ e, x.fault (.set "users" "giash_uid") = some e ∧
          (run x ⟨"GET"⟩ w).1 = .ok (failureResponse e) ∧ (run x ⟨"GET"⟩ w).2.db = db0 ∧
          (run x ⟨"GET"⟩ w).2.ops = pre ++ [.set "users" "giash_uid"]) ∨
      (∃ e, x.fault (.set "users" "giash_uid") = none ∧
          x.fault (.set "users" "rina_uid") = some e ∧
          (run x ⟨"GET"⟩ w).1 = .ok (failureResponse e) ∧
          (run x ⟨"GET"⟩ w).2.db = db0.setDoc "users" "giash_uid" giash ∧
          (run x ⟨"GET"⟩ w).2.ops =
            pre ++ [.set "users" "giash_uid", .set "users" "rina_uid"]) ∨
      (∃ e, x.fault (.set "users" "giash_uid") = none ∧
          x.fault (.set "users" "rina_uid") = none ∧
          x.fault (.set "pairs" "giash_rina_home") = some e ∧
          (run x ⟨"GET"⟩ w).1 = .ok (failureResponse e) ∧
          (run x ⟨"GET"⟩ w).2.db =
            (db0.setDoc "users" "giash_uid" giash).setDoc "users" "rina_uid" rina ∧
          (run x ⟨"GET"⟩ w).2.ops = pre ++ writeOps) ∨
      (∃ e, WritesReturn x ∧ x.fault (.get "users") = some e ∧
          (run x ⟨"GET"⟩ w).1 = .ok (failureResponse e) ∧
          (run x ⟨"GET"⟩ w).2.db = seeded x.now w.db ∧
          (run x ⟨"GET"⟩ w).2.ops = pre ++ writeOps ++ [.get "users"]) ∨
      (∃ e, WritesReturn x ∧ x.fault (.get "users") = none ∧
          x.fault (.get "pairs") = some e ∧
          (run x ⟨"GET"⟩ w).1 = .ok (failureResponse e) ∧
          (run x ⟨"GET"⟩ w).2.db = seeded x.now w.db ∧
          (run x ⟨"GET"⟩ w).2.ops = pre ++ writeOps ++ countOps) ∨
      (∃ e, WritesReturn x ∧ CountsReturn x ∧ (sa = .null ∨ sa = .undefined) ∧
          (run x ⟨"GET"⟩ w).1 = .ok (failureResponse e) ∧
          (run x ⟨"GET"⟩ w).2.db = seeded x.now w.db ∧
          (run x ⟨"GET"⟩ w).2.ops = pre ++ writeOps ++ countOps) ∨
      (WritesReturn x ∧ CountsReturn x ∧ sa ≠ .null ∧ sa ≠ .undefined ∧
          (run x ⟨"GET"⟩ w).1 =
            .ok (successResponse (sa.get "project_id") ((seeded x.now w.db).size "users")
              ((seeded x.now w.db).size "pairs") x.isoNow) ∧
          (run x ⟨"GET"⟩ w).2.db = seeded x.now w.db ∧
          (run x ⟨"GET"⟩ w).2.ops = pre ++ writeOps ++ countOps))) := by
  obtain ⟨hres, hdb, hops⟩ := run_get x w
  rw [hres, hdb, hops]
  simp only [setup, M.bind_def, M.andThen]
  rcases initFirebase_cases x w.entered with ⟨e, s1, l, hinit, hdb1, hops1, hl⟩ |
    ⟨sa, s1, l, hinit, hdb1, hops1, hl, hboot⟩
  · left
    refine ⟨e, by simp [hinit], by simp [hinit, hdb1, entered_db], ?_⟩
    simpa [hinit, hops1, entered_ops] using hl
  · right
    rw [hinit]
    simp only
    obtain ⟨db0, l2, hrel, hl2, hbatch, hcases⟩ := pipeline_cases x sa s1
    rw [hdb1, entered_db] at hrel hcases
    rw [hops1, entered_ops] at hcases
    refine ⟨sa, l ++ l2, db0, hboot, ?_, List.mem_append_right _ hbatch, hrel, ?_⟩
    · intro op hop
      rcases List.mem_append.1 hop with h | h
      · exact Or.inl (hl op h)
      · exact Or.inr (hl2 op h)
    · rcases hcases with ⟨e, s2, h1, hp, hd, ho⟩ | ⟨e, s2, h1, h2, hp, hd, ho⟩ |
        ⟨e, s2, h1, h2, h3, hp, hd, ho⟩ | ⟨e, s2, hw, h1, hp, hd, ho⟩ |
        ⟨e, s2, hw, h1, h2, hp, hd, ho⟩ | ⟨e, s2, hw, hc, hsa, -, hp, hd, ho⟩ |
        ⟨s2, hw, hc, hn, hu, hp, hd, ho⟩
      · left
        exact ⟨e, h1, by simp [hp], by simp [hp, hd], by simp [hp, ho]⟩
      · right; left
        exact ⟨e, h1, h2, by simp [hp], by simp [hp, hd], by simp [hp, ho]⟩
      · right; right; left
        exact ⟨e, h1, h2, h3, by simp [hp], by simp [hp, hd], by simp [hp, ho]⟩
      · right; right; right; left
        exact ⟨e, hw, h1, by simp [hp], by simp [hp, hd], by simp [hp, ho]⟩
      · right; right; right; right; left
        exact ⟨e, hw, h1, h2, by simp [hp], by simp [hp, hd], by simp [hp, ho]⟩
      · right; right; right; right; right; left
        exact ⟨e, hw, hc, hsa, by simp [hp], by simp [hp, hd], by simp [hp, ho]⟩
      · right; right; right; right; right; right
        exact ⟨hw, hc, hn, hu, by simp [hp], by simp [hp, hd], by simp [hp, ho]⟩

theorem failureResponse_flag (e : String) (b : Value) (h : (failureResponse e).body = some b) :
    b.get "success" = .bool false := by
  simp only [failureResponse, Option.some.injEq] at h
  subst h
  simp [Value.get, List.lookup]

/-- A `GET` run whose response is marked successful had a usable credential and went through
the whole pipeline. -/
theorem run_get_success (x : Externals) (w : World) (r : Response)
    (h : (run x ⟨"GET"⟩ w).1 = .ok r)
    (hs : r.status = 200 ∨ ∃ b, r.body = some b ∧ b.get "success" = .bool true) :
    ∃ sa pre, UsableCredential x w sa ∧
      (∀ op ∈ pre, isBootOp op = true ∨ isResetOp op = true) ∧ Op.batch ∈ pre ∧
      WritesReturn x ∧ CountsReturn x ∧
      r = successResponse (sa.get "project_id") ((seeded x.now w.db).size "users")
        ((seeded x.now w.db).size "pairs") x.isoNow ∧
      (run x ⟨"GET"⟩ w).2.db = seeded x.now w.db ∧
      (run x ⟨"GET"⟩ w).2.ops = pre ++ writeOps ++ countOps := by
  have hfail : ∀ e, (run x ⟨"GET"⟩ w).1 = .ok (failureResponse e) → False := by
    intro e he
    rw [h] at he
    injection he with he
    subst he
    rcases hs with hs | ⟨b, hb, hflag⟩
    · simp [failureResponse] at hs
    · rw [failureResponse_flag e b hb] at hflag
      simp at hflag
  rcases run_get_cases x w with ⟨e, he, -⟩ | ⟨sa, pre, db0, hboot, hpre, hbatch, -, hc⟩
  · exact (hfail e he).elim
  · rcases hc with ⟨e, -, he, -⟩ | ⟨e, -, -, he, -⟩ | ⟨e, -, -, -, he, -⟩ | ⟨e, -, -, he, -⟩ |
      ⟨e, -, -, -, he, -⟩ | ⟨e, -, -, -, he, -⟩ | ⟨hw, hc, hn, hu, hr, hdb, hops⟩
    · exact (hfail e he).elim
    · exact (hfail e he).elim
    · exact (hfail e he).elim
    · exact (hfail e he).elim
    · exact (hfail e he).elim
    · exact (hfail e he).elim
    · rw [h] at hr
      injection hr with hr
      exact ⟨sa, pre, ⟨hboot, hn, hu⟩, hpre, hbatch, hw, hc, hr, hdb, hops⟩

/-- With a usable credential, returning writes and returning counts, a `GET` run ends in
the success response, whatever the reset did. -/
theorem run_get_ok (x : Externals) (w : World) (sa : Value) (hcred : UsableCredential x w sa)
    (hw : WritesReturn x) (hc : CountsReturn x) :
    ∃ pre, (∀ op ∈ pre, isBootOp op = true ∨ isResetOp op = true) ∧ Op.batch ∈ pre ∧
      (run x ⟨"GET"⟩ w).1 =
        .ok (successResponse (sa.get "project_id") ((seeded x.now w.db).size "users")
          ((seeded x.now w.db).size "pairs") x.isoNow) ∧
      (run x ⟨"GET"⟩ w).2.db = seeded x.now w.db ∧
      (run x ⟨"GET"⟩ w).2.ops = pre ++ writeOps ++ countOps := by
  obtain ⟨hboot, hn, hu⟩ := hcred
  obtain ⟨hres, hdb, hops⟩ := run_get x w
  obtain ⟨s1, l, hinit, hdb1, hops1, hl⟩ := initFirebase_ok x w.entered sa hboot
  obtain ⟨db0, l2, -, hl2, hbatch, hcases⟩ := pipeline_cases x sa s1
  have h1 := hw (.set "users" "giash_uid") (by simp [writeOps])
  have h2 := hw (.set "users" "rina_uid") (by simp [writeOps])
  have h3 := hw (.set "pairs" "giash_rina_home") (by simp [writeOps])
  have h4 := hc (.get "users") (by simp [countOps])
  have h5 := hc (.get "pairs") (by simp [countOps])
  rw [hres, hdb, hops]
  simp only [setup, M.bind_def, M.andThen, hinit]
  rw [hdb1, entered_db, hops1, entered_ops] at hcases
  refine ⟨l ++ l2, ?_, List.mem_append_right _ hbatch, ?_⟩
  · intro op hop
    rcases List.mem_append.1 hop with h | h
    · exact Or.inl (hl op h)
    · exact Or.inr (hl2 op h)
  rcases hcases with ⟨e, s2, h, -⟩ | ⟨e, s2, -, h, -⟩ | ⟨e, s2, -, -, h, -⟩ | ⟨e, s2, -, h, -⟩ |
    ⟨e, s2, -, -, h, -⟩ | ⟨e, s2, -, -, h, -⟩ | ⟨s2, -, -, -, -, hp, hd, ho⟩
  · simp [h1] at h
  · simp [h2] at h
  · simp [h3] at h
  · simp [h4] at h
  · simp [h5] at h
  · simp [hn, hu] at h
  · simp [hp, hd, ho]

/-- A call of the seed or of the verification is not in a trace of bootstrap and reset
calls. -/
theorem not_mem_pre {pre : List Op} (hpre : ∀ op ∈ pre, isBootOp op = true ∨ isResetOp op = true)
    (op : Op) (h1 : isBootOp op = false) (h2 : isResetOp op = false) : op ∉ pre := by
  intro hop
  rcases hpre op hop with h | h
  · rw [h1] at h; exact Bool.noConfusion h
  · rw [h2] at h; exact Bool.noConfusion h

theorem keys_setDoc_same (db : Database) (coll id : String) (v : Value) :
    ((db.setDoc coll id v) coll).keys = insert id (db coll).keys := by
  ext k
  simp [Database.setDoc, Finmap.mem_keys, Finmap.mem_insert]

theorem setDoc_other (db : Database) (c coll id : String) (v : Value) (h : coll ≠ c) :
    (db.setDoc c id v) coll = db coll := by
  simp [Database.setDoc, Function.update_noteq h]

theorem users_seeded (now : Nat → Int) (db : Database) :
    ((seeded now db) "users").keys = (db "users").keys ∪ {"giash_uid", "rina_uid"} := by
  have h : ("users" : String) ≠ "pairs" := by decide
  simp only [seeded, setDoc_other _ _ _ _ _ h, keys_setDoc_same]
  ext k
  simp only [Finset.mem_insert, Finset.mem_union, Finset.mem_singleton]
  tauto

theorem pairs_seeded (now : Nat → Int) (db : Database) :
    ((seeded now db) "pairs").keys = (db "pairs").keys ∪ {"giash_rina_home"} := by
  have h : ("pairs" : String) ≠ "users" := by decide
  simp only [seeded, keys_setDoc_same, setDoc_other _ _ _ _ _ h]
  ext k
  simp only [Finset.mem_insert, Finset.mem_union, Finset.mem_singleton]
  tauto

theorem Sample.usable :
    UsableCredential Sample.externals Sample.world
      (.obj [("project_id", .str "shukku-list")]) :=
  ⟨⟨⟨"credential", rfl, by decide, rfl⟩, fun _ => ⟨rfl, by simp, by simp, rfl⟩, rfl⟩,
    by simp, by simp⟩

theorem Sample.populated_usable :
    UsableCredential Sample.externals Sample.populated
      (.obj [("project_id", .str "shukku-list")]) :=
  ⟨⟨⟨"credential", rfl, by decide, rfl⟩, fun _ => ⟨rfl, by simp, by simp, rfl⟩, rfl⟩,
    by simp, by simp⟩

theorem Sample.populated_run_ok :
    (run Sample.externals ⟨"GET"⟩ Sample.populated).1 =
      .ok (successResponse (.str "shukku-list")
        ((seeded Sample.externals.now Sample.populated.db).size "users")
        ((seeded Sample.externals.now Sample.populated.db).size "pairs")
        "2023-11-14T22:13:20.000Z") := by
  obtain ⟨pre, -, -, h, -⟩ := run_get_ok Sample.externals Sample.populated _
    Sample.populated_usable (fun _ _ => rfl) (fun _ _ => rfl)
  exact h

theorem Sample.run_ok :
    (run Sample.externals ⟨"GET"⟩ Sample.world).1 =
      .ok (successResponse (.str "shukku-list")
        ((seeded Sample.externals.now Sample.world.db).size "users")
        ((seeded Sample.externals.now Sample.world.db).size "pairs")
        "2023-11-14T22:13:20.000Z") := by
  obtain ⟨pre, -, -, h, -⟩ := run_get_ok Sample.externals Sample.world _ Sample.usable
    (fun _ _ => rfl) (fun _ _ => rfl)
  exact h

/-- With a bootstrap that goes through, returning writes and returning counts, a `GET` run
issues the three writes and the two counts after the reset and leaves the seeded
database, whatever the reset did. -/
theorem run_get_boot (x : Externals) (w : World) (sa : Value) (hboot : Bootstraps x w sa)
    (hw : WritesReturn x) (hc : CountsReturn x) :
    ∃ pre, (∀ op ∈ pre, isBootOp op = true ∨ isResetOp op = true) ∧ Op.batch ∈ pre ∧
      (run x ⟨"GET"⟩ w).2.db = seeded x.now w.db ∧
      (run x ⟨"GET"⟩ w).2.ops = pre ++ writeOps ++ countOps := by
  obtain ⟨hres, hdb, hops⟩ := run_get x w
  obtain ⟨s1, l, hinit, hdb1, hops1, hl⟩ := initFirebase_ok x w.entered sa hboot
  obtain ⟨db0, l2, -, hl2, hbatch, hcases⟩ := pipeline_cases x sa s1
  have h1 := hw (.set "users" "giash_uid") (by simp [writeOps])
  have h2 := hw (.set "users" "rina_uid") (by simp [writeOps])
  have h3 := hw (.set "pairs" "giash_rina_home") (by simp [writeOps])
  have h4 := hc (.get "users") (by simp [countOps])
  have h5 := hc (.get "pairs") (by simp [countOps])
  rw [hdb, hops]
  simp only [setup, M.bind_def, M.andThen, hinit]
  rw [hdb1, entered_db, hops1, entered_ops] at hcases
  refine ⟨l ++ l2, ?_, List.mem_append_right _ hbatch, ?_⟩
  · intro op hop
    rcases List.mem_append.1 hop with h | h
    · exact Or.inl (hl op h)
    · exact Or.inr (hl2 op h)
  rcases hcases with ⟨e, s2, h, -⟩ | ⟨e, s2, -, h, -⟩ | ⟨e, s2, -, -, h, -⟩ | ⟨e, s2, -, h, -⟩ |
    ⟨e, s2, -, -, h, -⟩ | ⟨e, s2, -, -, -, -, hp, hd, ho⟩ | ⟨s2, -, -, -, -, hp, hd, ho⟩
  · simp [h1] at h
  · simp [h2] at h
  · simp [h3] at h
  · simp [h4] at h
  · simp [h5] at h
  · simp [hp, hd, ho]
  · simp [hp, hd, ho]

theorem demoItems_congr (now now1 : Nat → Int) (h : ∀ i, i < 12 → now1 i = now i) :
    demoItems now1 = demoItems now := by
  simp [demoItems, h]

theorem seeded_congr (now now1 : Nat → Int) (h : ∀ i, i < 12 → now1 i = now i)
    (db : Database) : seeded now1 db = seeded now db := by
  simp [seeded, giashRinaHome, demoItems_congr now now1 h]

theorem mem_writes_counts {op : Op} (h : op ∈ writeOps ++ countOps) :
    isBootOp op = false ∧ isResetOp op = false := by
  simp only [writeOps, countOps, List.cons_append, List.nil_append, List.mem_cons,
    List.mem_singleton, List.not_mem_nil, or_false] at h
  rcases h with rfl | rfl | rfl | rfl | rfl <;> exact ⟨rfl, rfl⟩

/-- After a bootstrap that goes through, the first fixture write is issued, and it follows
the reset calls, whatever the reset did. -/
theorem run_get_first_write (x : Externals) (w : World) (sa : Value)
    (hboot : Bootstraps x w sa) :
    ∃ pre rest, (∀ op ∈ pre, isBootOp op = true ∨ isResetOp op = true) ∧ Op.batch ∈ pre ∧
      (run x ⟨"GET"⟩ w).2.ops = pre ++ Op.set "users" "giash_uid" :: rest := by
  obtain ⟨-, -, hops⟩ := run_get x w
  obtain ⟨s1, l, hinit, hdb1, hops1, hl⟩ := initFirebase_ok x w.entered sa hboot
  obtain ⟨db0, l2, -, hl2, hbatch, hcases⟩ := pipeline_cases x sa s1
  rw [hops]
  simp only [setup, M.bind_def, M.andThen, hinit]
  rw [hops1, entered_ops] at hcases
  have hpre : ∀ op ∈ l ++ l2, isBootOp op = true ∨ isResetOp op = true := by
    intro op hop
    rcases List.mem_append.1 hop with h | h
    · exact Or.inl (hl op h)
    · exact Or.inr (hl2 op h)
  rcases hcases with ⟨e, s2, -, hp, -, ho⟩ | ⟨e, s2, -, -, hp, -, ho⟩ |
    ⟨e, s2, -, -, -, hp, -, ho⟩ | ⟨e, s2, -, -, hp, -, ho⟩ | ⟨e, s2, -, -, -, hp, -, ho⟩ |
    ⟨e, s2, -, -, -, -, hp, -, ho⟩ | ⟨s2, -, -, -, -, hp, -, ho⟩
  · exact ⟨l ++ l2, [], hpre, List.mem_append_right _ hbatch, by simp [hp, ho]⟩
  · exact ⟨l ++ l2, [.set "users" "rina_uid"], hpre, List.mem_append_right _ hbatch,
      by simp [hp, ho]⟩
  · exact ⟨l ++ l2, [.set "users" "rina_uid", .set "pairs" "giash_rina_home"], hpre,
      List.mem_append_right _ hbatch, by simp [hp, ho, writeOps]⟩
  · exact ⟨l ++ l2, [.set "users" "rina_uid", .set "pairs" "giash_rina_home", .get "users"],
      hpre, List.mem_append_right _ hbatch, by simp [hp, ho, writeOps]⟩
  · exact ⟨l ++ l2,
      [.set "users" "rina_uid", .set "pairs" "giash_rina_home", .get "users", .get "pairs"],
      hpre, List.mem_append_right _ hbatch, by simp [hp, ho, writeOps, countOps]⟩
  · exact ⟨l ++ l2,
      [.set "users" "rina_uid", .set "pairs" "giash_rina_home", .get "users", .get "pairs"],
      hpre, List.mem_append_right _ hbatch, by simp [hp, ho, writeOps, countOps]⟩
  · exact ⟨l ++ l2,
      [.set "users" "rina_uid", .set "pairs" "giash_rina_home", .get "users", .get "pairs"],
      hpre, List.mem_append_right _ hbatch, by simp [hp, ho, writeOps, countOps]⟩

theorem Sample.partialReset_same : SameExceptReset Sample.partialReset Sample.externals :=
  ⟨rfl, rfl, rfl, fun op hop => by
    cases op <;> simp [Sample.partialReset, Sample.externals, isResetOp] at hop ⊢⟩

theorem Sample.partialReset_writes : WritesReturn Sample.partialReset := fun op hop => by
  simp only [writeOps, List.mem_cons, List.mem_singleton, List.not_mem_nil, or_false] at hop
  rcases hop with rfl | rfl | rfl <;> simp [Sample.partialReset, Sample.externals]

theorem Sample.partialReset_counts : CountsReturn Sample.partialReset := fun op hop => by
  simp only [countOps, List.mem_cons, List.mem_singleton, List.not_mem_nil, or_false] at hop
  rcases hop with rfl | rfl <;> simp [Sample.partialReset, Sample.externals]

theorem Sample.partialReset_usable :
    UsableCredential Sample.partialReset Sample.populated
      (.obj [("project_id", .str "shukku-list")]) :=
  ⟨⟨⟨"credential", rfl, by decide, rfl⟩, fun _ => ⟨rfl, by simp, by simp, rfl⟩, rfl⟩,
    by simp, by simp⟩

theorem Sample.nullCredential_boots :
    Bootstraps Sample.nullCredential Sample.initialised .null :=
  ⟨⟨"null", rfl, by decide, rfl⟩, fun h => by simp [Sample.initialised] at h, rfl⟩

/-! ## The claims -/

/-- Claim C1. Whenever a `GET` run ends in the success response, the final database holds at
`users/giash_uid` and `users/rina_uid` exactly the two catalog users and at
`pairs/giash_rina_home` exactly the catalog pair, whose `items` are the six catalog items
in catalog order; this is so whatever was stored there before, and every other document of
every collection is the one of the initial database. -/
theorem C1_success_installs_catalog (x : Externals) (w : World) (r : Response)
    (h : (run x ⟨"GET"⟩ w).1 = .ok r) (hs : r.status = 200) :
    demoUsers = [giash, rina] ∧ demoPairs x.now = [giashRinaHome x.now] ∧
    ((run x ⟨"GET"⟩ w).2.db "users").lookup "giash_uid" = some giash ∧
    ((run x ⟨"GET"⟩ w).2.db "users").lookup "rina_uid" = some rina ∧
    ((run x ⟨"GET"⟩ w).2.db "pairs").lookup "giash_rina_home" = some (giashRinaHome x.now) ∧
    (giashRinaHome x.now).get "items" = .arr (demoItems x.now) ∧
    (demoItems x.now).map (fun item => item.get "id") =
      [.str "1", .str "2", .str "3", .str "4", .str "5", .str "6"] ∧
    (∀ id, id ≠ "giash_uid" → id ≠ "rina_uid" →
      ((run x ⟨"GET"⟩ w).2.db "users").lookup id = (w.db "users").lookup id) ∧
    (∀ id, id ≠ "giash_rina_home" →
      ((run x ⟨"GET"⟩ w).2.db "pairs").lookup id = (w.db "pairs").lookup id) ∧
    (∀ coll, coll ≠ "users" → coll ≠ "pairs" → (run x ⟨"GET"⟩ w).2.db coll = w.db coll) := by
  obtain ⟨sa, pre, -, -, -, -, -, -, hdb, -⟩ := run_get_success x w r h (Or.inl hs)
  rw [hdb]
  refine ⟨rfl, rfl, ?_, ?_, ?_, ?_, ?_, ?_, ?_, ?_⟩
  · simp [lookup_seeded]
  · simp [lookup_seeded]
  · simp [lookup_seeded]
  · simp [giashRinaHome, Value.get, List.lookup]
  · simp [demoItems, Value.get, List.lookup]
  · intro id h1 h2
    simp [lookup_seeded, h1, h2]
  · intro id h1
    simp [lookup_seeded, h1]
  · intro coll h1 h2
    apply Finmap.ext_lookup
    intro id
    simp [lookup_seeded, h1, h2]

theorem C1_success_installs_catalog_witness :
    ((run Sample.externals ⟨"GET"⟩ Sample.populated).2.db "users").lookup "giash_uid" =
        some giash ∧
      ((run Sample.externals ⟨"GET"⟩ Sample.populated).2.db "users").lookup "mina_uid" =
        some (.obj [("name", .str "Mina")]) := by
  have h := C1_success_installs_catalog Sample.externals Sample.populated _
    Sample.populated_run_ok rfl
  refine ⟨h.2.2.1, ?_⟩
  rw [h.2.2.2.2.2.2.2.1 "mina_uid" (by decide) (by decide)]
  rfl

/-- Claim C2, amended.  The outcome of a `GET` run does not depend on the outcome of the
reset.  `clearDemoData` returns normally from every state, whatever `db.batch()`, the
`batch.delete` calls and `batch.commit()` do.  After a bootstrap that went through, the
first fixture write is issued after the reset calls.  If the three writes and the two
counts return, then the run has the same response and the same final database as under any
environment that differs only in what the reset observes (in particular one in which the
reset succeeded), all three writes and both counts are issued after the reset calls, and
the final database is the seeded one.  That response is the success response, with the
counts of the seeded database, provided the parsed credential is an actual value; a
credential that parses to `null` makes line 184 throw after the counts. -/
theorem C2_reset_tolerance (x : Externals) (w : World) :
    (∀ s, ∃ s1, clearDemoData x s = (.ok (), s1)) ∧
    (∀ sa, Bootstraps x w sa →
      ∃ pre rest, (∀ op ∈ pre, isBootOp op = true ∨ isResetOp op = true) ∧ Op.batch ∈ pre ∧
        (run x ⟨"GET"⟩ w).2.ops = pre ++ Op.set "users" "giash_uid" :: rest) ∧
    (WritesReturn x → CountsReturn x →
      (∀ y, SameExceptReset x y →
        (run x ⟨"GET"⟩ w).1 = (run y ⟨"GET"⟩ w).1 ∧
        (run x ⟨"GET"⟩ w).2.db = (run y ⟨"GET"⟩ w).2.db) ∧
      (∀ sa, Bootstraps x w sa →
        (run x ⟨"GET"⟩ w).2.db = seeded x.now w.db ∧
        ∃ pre, (∀ op ∈ pre, isBootOp op = true ∨ isResetOp op = true) ∧ Op.batch ∈ pre ∧
          (run x ⟨"GET"⟩ w).2.ops = pre ++ writeOps ++ countOps) ∧
      (∀ sa, UsableCredential x w sa →
        (run x ⟨"GET"⟩ w).1 =
          .ok (successResponse (sa.get "project_id") ((seeded x.now w.db).size "users")
            ((seeded x.now w.db).size "pairs") x.isoNow))) := by
  refine ⟨?_, ?_, ?_⟩
  · intro s
    obtain ⟨s1, l, h, -⟩ := clearDemoData_spec x s
    exact ⟨s1, h⟩
  · intro sa hboot
    exact run_get_first_write x w sa hboot
  · intro hw hc
    refine ⟨fun y hsame => run_get_congr x y hsame hw hc w, ?_, ?_⟩
    · intro sa hboot
      obtain ⟨pre, hpre, hbatch, hdb, hops⟩ := run_get_boot x w sa hboot hw hc
      exact ⟨hdb, pre, hpre, hbatch, hops⟩
    · intro sa hcred
      obtain ⟨pre, -, -, hres, -⟩ := run_get_ok x w sa hcred hw hc
      exact hres

theorem C2_reset_tolerance_witness :
    (((clearDemoData Sample.partialReset Sample.populated.entered).2.db "users").lookup
        "giash_uid").isSome = true ∧
    (((clearDemoData Sample.externals Sample.populated.entered).2.db "users").lookup
        "giash_uid").isSome = false ∧
    (run Sample.partialReset ⟨"GET"⟩ Sample.populated).1 =
        (run Sample.externals ⟨"GET"⟩ Sample.populated).1 ∧
    (run Sample.partialReset ⟨"GET"⟩ Sample.populated).2.db =
        (run Sample.externals ⟨"GET"⟩ Sample.populated).2.db ∧
    (run Sample.partialReset ⟨"GET"⟩ Sample.populated).1 =
        .ok (successResponse (.str "shukku-list")
          ((seeded Sample.partialReset.now Sample.populated.db).size "users")
          ((seeded Sample.partialReset.now Sample.populated.db).size "pairs")
          "2023-11-14T22:13:20.000Z") := by
  have h := (C2_reset_tolerance Sample.partialReset Sample.populated).2.2
    Sample.partialReset_writes Sample.partialReset_counts
  obtain ⟨h1, h2⟩ := h.1 Sample.externals Sample.partialReset_same
  refine ⟨?_, ?_, h1, h2, h.2.2 _ Sample.partialReset_usable⟩
  · simp [clearDemoData, Sample.partialReset, Sample.externals, Sample.populated,
      World.entered, World.start, applyDeletes, lookup_deleteDoc]
  · simp [clearDemoData, Sample.externals, Sample.populated, World.entered, World.start,
      applyDeletes, lookup_deleteDoc]

/-- At the credential text `null` with the SDK already initialised, every call returns,
the three writes and the two counts are issued and the database is seeded, and yet the run
ends in the failure response with status 500: reading `project_id` at line 184 throws. -/
theorem C2_counterexample :
    WritesReturn Sample.nullCredential ∧ CountsReturn Sample.nullCredential ∧
    (∀ op, Sample.nullCredential.fault op = none) ∧
    (∃ pre, (run Sample.nullCredential ⟨"GET"⟩ Sample.initialised).2.ops =
      pre ++ writeOps ++ countOps) ∧
    (run Sample.nullCredential ⟨"GET"⟩ Sample.initialised).2.db =
      seeded Sample.nullCredential.now Sample.initialised.db ∧
    (run Sample.nullCredential ⟨"GET"⟩ Sample.initialised).1 =
      .ok (failureResponse "Cannot read properties of null (reading 'project_id')") ∧
    (failureResponse "Cannot read properties of null (reading 'project_id')").status = 500 ∧
    ¬ ∃ r, (run Sample.nullCredential ⟨"GET"⟩ Sample.initialised).1 = .ok r ∧
      r.status = 200 := by
  have hw : WritesReturn Sample.nullCredential := fun _ _ => rfl
  have hc : CountsReturn Sample.nullCredential := fun _ _ => rfl
  obtain ⟨pre, -, -, hdb, hops⟩ := run_get_boot Sample.nullCredential Sample.initialised _
    Sample.nullCredential_boots hw hc
  have hres : (run Sample.nullCredential ⟨"GET"⟩ Sample.initialised).1 =
      .ok (failureResponse "Cannot read properties of null (reading 'project_id')") := by
    simp [run, handler, setup, initFirebase, pipeline, clearDemoData, seed,
      Sample.nullCredential, Sample.externals, Sample.initialised, World.start, falsy, getProp,
      demoUsers, demoPairs, giash_uid, rina_uid, giashRinaHome_pairId]
  refine ⟨hw, hc, fun _ => rfl, ⟨pre, hops⟩, hdb, hres, rfl, ?_⟩
  rintro ⟨r, hr, hs⟩
  rw [hres] at hr
  injection hr with hr
  subst hr
  simp [failureResponse] at hs

/-- Claim C3. Number the five calls after the reset in the order in which the handler issues
them: the writes of `users/giash_uid`, `users/rina_uid` and `pairs/giash_rina_home`, then
the counts of `users` and of `pairs`.  In every `GET` run in which the `k`-th of them is
issued and fails with message `e`, the response is status 500 with the body
`{success: false, error: e, help}`, none of the later calls is issued, and the documents
written by the earlier writes are in the final database. -/
theorem C3_failure_aborts (x : Externals) (w : World) (k : Nat) (op : Op) (e : String)
    (hk : (writeOps ++ countOps)[k]? = some op) (hissued : op ∈ (run x ⟨"GET"⟩ w).2.ops)
    (hfail : x.fault op = some e) :
    (run x ⟨"GET"⟩ w).1 = .ok
      { headers := corsHeaders, status := 500,
        body := some (.obj [("success", .bool false), ("error", .str e),
          ("help", .str helpText)]) } ∧
    (∀ later ∈ (writeOps ++ countOps).drop (k + 1), later ∉ (run x ⟨"GET"⟩ w).2.ops) ∧
    (∀ d ∈ (fixtureDocs x.now).take k,
      ((run x ⟨"GET"⟩ w).2.db d.1).lookup d.2.1 = some d.2.2) ∧
    writeOps = (fixtureDocs x.now).map (fun d => Op.set d.1 d.2.1) := by
  have hmem : op ∈ writeOps ++ countOps := List.getElem?_mem hk
  obtain ⟨hb, hr⟩ := mem_writes_counts hmem
  rcases run_get_cases x w with ⟨e1, -, -, hops⟩ | ⟨sa, pre, db0, -, hpre, -, -, hcases⟩
  · have := hops op hissued
    rw [hb] at this
    exact Bool.noConfusion this
  · have hnp : ∀ o ∈ writeOps ++ countOps, o ∉ pre := fun o ho =>
      not_mem_pre hpre o (mem_writes_counts ho).1 (mem_writes_counts ho).2
    have n1 := hnp (.set "users" "giash_uid") (by simp [writeOps])
    have n2 := hnp (.set "users" "rina_uid") (by simp [writeOps])
    have n3 := hnp (.set "pairs" "giash_rina_home") (by simp [writeOps])
    have n4 := hnp (.get "users") (by simp [countOps])
    have n5 := hnp (.get "pairs") (by simp [countOps])
    have hk5 : k < 5 := by
      by_contra hlt
      have : (writeOps ++ countOps)[k]? = none := by
        apply List.getElem?_eq_none
        simp only [writeOps, countOps, List.cons_append, List.nil_append, List.length_cons,
          List.length_nil]
        omega
      rw [this] at hk
      exact Option.noConfusion hk
    have hk2 : k = 0 ∨ k = 1 ∨ k = 2 ∨ k = 3 ∨ k = 4 := by omega
    rcases hk2 with rfl | rfl | rfl | rfl | rfl <;>
      simp only [writeOps, countOps, List.cons_append, List.nil_append, List.getElem?_cons_zero,
        List.getElem?_cons_succ, Option.some.injEq] at hk <;>
      subst hk <;>
      rcases hcases with ⟨e1, h1, hres, hdb, hops⟩ | ⟨e1, h1, h2, hres, hdb, hops⟩ |
        ⟨e1, h1, h2, h3, hres, hdb, hops⟩ | ⟨e1, hwr, h4, hres, hdb, hops⟩ |
        ⟨e1, hwr, h4, h5, hres, hdb, hops⟩ | ⟨e1, hwr, hcr, -, hres, hdb, hops⟩ |
        ⟨hwr, hcr, -, -, hres, hdb, hops⟩
    all_goals
      rw [hops] at hissued
      rw [hres, hdb, hops]
      simp_all [writeOps, countOps, fixtureDocs, failureResponse, lookup_setDoc, lookup_seeded,
        WritesReturn, CountsReturn]

theorem C3_failure_aborts_witness :
    (run (Sample.failing (.set "users" "rina_uid") "PERMISSION_DENIED") ⟨"GET"⟩
        Sample.world).1 = .ok
      { headers := corsHeaders, status := 500,
        body := some (.obj [("success", .bool false), ("error", .str "PERMISSION_DENIED"),
          ("help", .str helpText)]) } ∧
    Op.set "pairs" "giash_rina_home" ∉
      (run (Sample.failing (.set "users" "rina_uid") "PERMISSION_DENIED") ⟨"GET"⟩
        Sample.world).2.ops ∧
    ((run (Sample.failing (.set "users" "rina_uid") "PERMISSION_DENIED") ⟨"GET"⟩
        Sample.world).2.db "users").lookup "giash_uid" = some giash := by
  have h := C3_failure_aborts (Sample.failing (.set "users" "rina_uid") "PERMISSION_DENIED")
    Sample.world 1 (.set "users" "rina_uid") "PERMISSION_DENIED" (by simp [writeOps, countOps])
    (by
      simp [run, handler, setup, initFirebase, pipeline, clearDemoData, seed, Sample.failing,
        Sample.externals, Sample.world, World.start, falsy, getProp, demoUsers, demoPairs,
        giash_uid, rina_uid, giashRinaHome_pairId])
    (by simp [Sample.failing])
  obtain ⟨h1, h2, h3, -⟩ := h
  refine ⟨h1, h2 _ (by simp [writeOps, countOps]), ?_⟩
  have h4 := h3 ("users", "giash_uid", giash) (by simp [fixtureDocs])
  simpa using h4

/-- Claim C4. A `GET` request made while `FIREBASE_SERVICE_ACCOUNT` is unset or empty is
answered with status 500 and the failure body `{success: false, error, help}` whose `error`
is the configuration-missing message with its setup steps.  The only call issued is the
read of the environment variable: no SDK initialisation, no batch, no write, no count; the
database and the app registry are the initial ones. -/
theorem C4_missing_credential (x : Externals) (w : World)
    (h : w.env = none ∨ w.env = some "") :
    (run x ⟨"GET"⟩ w).1 = .ok
      { headers := corsHeaders, status := 500,
        body := some (.obj [("success", .bool false),
          ("error", .str missingCredentialMessage), ("help", .str helpText)]) } ∧
    (run x ⟨"GET"⟩ w).2.ops = [.readEnv] ∧
    (∀ op ∈ (run x ⟨"GET"⟩ w).2.ops, op = .readEnv) ∧
    (run x ⟨"GET"⟩ w).2.db = w.db ∧ (run x ⟨"GET"⟩ w).2.apps = w.apps ∧
    (∃ before after, missingCredentialMessage = before ++ "Setup Steps:" ++ after) := by
  have hf : falsy w.env = true := by
    rcases h with h | h <;> simp [h, falsy]
  refine ⟨?_, ?_, ?_, ?_, ?_, ?_⟩
  all_goals try simp [run, handler, setup, initFirebase, World.start, hf, failureResponse]
  exact ⟨"\nFIREBASE_SERVICE_ACCOUNT environment variable is missing.\n\n", "\n1. Go to Firebase Console → Project Settings → Service Accounts\n2. Click \"Generate New Private Key\"\n3. Copy the entire JSON\n4. Add to Vercel: FIREBASE_SERVICE_ACCOUNT = \x7b \"type\": \"service_account\", ... \x7d\n      ", rfl⟩

theorem C4_missing_credential_witness :
    (run Sample.externals ⟨"GET"⟩ { Sample.world with env := some "" }).2.ops = [.readEnv] ∧
    (run Sample.externals ⟨"GET"⟩ { Sample.world with env := none }).2.ops = [.readEnv] :=
  ⟨(C4_missing_credential Sample.externals { Sample.world with env := some "" }
      (Or.inr rfl)).2.1,
    (C4_missing_credential Sample.externals { Sample.world with env := none }
      (Or.inl rfl)).2.1⟩

/-- Claim C5. A request whose method is neither `GET` nor `OPTIONS` is answered with status
405 and the body `{success: false, error: 'Use GET request to setup database'}`; an
`OPTIONS` request is answered with status 200 and no body.  In both cases the handler
returns without having read the credential and without any SDK or database call, and the
database is the initial one. -/
theorem C5_method_gate (x : Externals) (w : World) (req : Request) (h : req.method ≠ "GET") :
    (req.method ≠ "OPTIONS" →
      (run x req w).1 = .ok
        { headers := corsHeaders, status := 405,
          body := some (.obj [("success", .bool false),
            ("error", .str "Use GET request to setup database")]) }) ∧
    (req.method = "OPTIONS" →
      (run x req w).1 = .ok { headers := corsHeaders, status := 200, body := none }) ∧
    (run x req w).2.ops = [] ∧ (run x req w).2.db = w.db := by
  by_cases ho : req.method = "OPTIONS" <;>
    simp [run, handler, ho, h, World.start, methodNotAllowedResponse, preflightResponse]

theorem C5_method_gate_witness :
    (run Sample.externals ⟨"POST"⟩ Sample.world).1 = .ok
        { headers := corsHeaders, status := 405,
          body := some (.obj [("success", .bool false),
            ("error", .str "Use GET request to setup database")]) } ∧
    (run Sample.externals ⟨"OPTIONS"⟩ Sample.world).1 =
      .ok { headers := corsHeaders, status := 200, body := none } ∧
    (run Sample.externals ⟨"POST"⟩ Sample.world).2.ops = [] :=
  ⟨(C5_method_gate Sample.externals Sample.world ⟨"POST"⟩ (by decide)).1 (by decide),
    (C5_method_gate Sample.externals Sample.world ⟨"OPTIONS"⟩ (by decide)).2.1 rfl,
    (C5_method_gate Sample.externals Sample.world ⟨"POST"⟩ (by decide)).2.2.1⟩

/-- Claim C6. Two `GET` runs in succession that both end in the success response, the second
reading the same clock values as the first (in particular with the clock held at one
reading), leave the database the first run left: the same identifiers with the same
contents, namely the initial documents and the three fixture documents, nothing twice and
nothing else; and the second run reports the same `users` and `pairs` counts as the
first. -/
theorem C6_idempotent (x1 x2 : Externals) (w : World) (r1 r2 : Response)
    (h1 : (run x1 ⟨"GET"⟩ w).1 = .ok r1) (hs1 : r1.status = 200)
    (h2 : (run x2 ⟨"GET"⟩ (run x1 ⟨"GET"⟩ w).2.world).1 = .ok r2) (hs2 : r2.status = 200)
    (hclock : ∀ i, i < 12 → x2.now i = x1.now i) :
    (run x2 ⟨"GET"⟩ (run x1 ⟨"GET"⟩ w).2.world).2.db = (run x1 ⟨"GET"⟩ w).2.db ∧
    ((run x1 ⟨"GET"⟩ w).2.db "users").keys = (w.db "users").keys ∪ {"giash_uid", "rina_uid"} ∧
    ((run x1 ⟨"GET"⟩ w).2.db "pairs").keys = (w.db "pairs").keys ∪ {"giash_rina_home"} ∧
    (∃ b1 b2, r1.body = some b1 ∧ r2.body = some b2 ∧
      (b2.get "data").get "users" = (b1.get "data").get "users" ∧
      (b2.get "data").get "pairs" = (b1.get "data").get "pairs") := by
  obtain ⟨sa1, pre1, -, -, -, -, -, hr1, hdb1, -⟩ := run_get_success x1 w r1 h1 (Or.inl hs1)
  obtain ⟨sa2, pre2, -, -, -, -, -, hr2, hdb2, -⟩ :=
    run_get_success x2 (run x1 ⟨"GET"⟩ w).2.world r2 h2 (Or.inl hs2)
  have hw : (run x1 ⟨"GET"⟩ w).2.world.db = seeded x1.now w.db := hdb1
  have hsame : seeded x2.now (seeded x1.now w.db) = seeded x1.now w.db := by
    rw [seeded_congr x1.now x2.now hclock, seeded_seeded]
  rw [hw, hsame] at hdb2 hr2
  refine ⟨by rw [hdb2, hdb1], by rw [hdb1, users_seeded], by rw [hdb1, pairs_seeded], ?_⟩
  subst hr1 hr2
  exact ⟨_, _, rfl, rfl, by simp [Value.get, List.lookup], by simp [Value.get, List.lookup]⟩

theorem C6_idempotent_witness :
    (run Sample.externals ⟨"GET"⟩ (run Sample.externals ⟨"GET"⟩ Sample.world).2.world).2.db =
      (run Sample.externals ⟨"GET"⟩ Sample.world).2.db := by
  obtain ⟨pre, -, -, -, hdb, -⟩ := run_get_ok Sample.externals Sample.world _ Sample.usable
    (fun _ _ => rfl) (fun _ _ => rfl)
  have hcred : UsableCredential Sample.externals
      (run Sample.externals ⟨"GET"⟩ Sample.world).2.world
      (.obj [("project_id", .str "shukku-list")]) := by
    refine ⟨⟨⟨"credential", ?_, by decide, rfl⟩, fun _ => ⟨rfl, by simp, by simp, rfl⟩, rfl⟩,
      by simp, by simp⟩
    simp [run, handler, setup, initFirebase, pipeline, clearDemoData, seed, Sample.externals,
      Sample.world, World.start, St.world, falsy, getProp, demoUsers, demoPairs, giash_uid,
      rina_uid, giashRinaHome_pairId]
  obtain ⟨pre2, -, -, hres2, -⟩ := run_get_ok Sample.externals
    (run Sample.externals ⟨"GET"⟩ Sample.world).2.world _ hcred (fun _ _ => rfl) (fun _ _ => rfl)
  exact (C6_idempotent Sample.externals Sample.externals Sample.world _ _ Sample.run_ok rfl
    hres2 rfl (fun _ _ => rfl)).1

/-- Claim C7. In the catalog the pair's `users` list has exactly two entries, the `uid`s of
the two catalog users in order, and the `addedBy` of each of the six items is one of them.
Consequently, after every `GET` run that ends in the success response, each entry of
`users` of the document stored at `pairs/giash_rina_home` names a document that exists in
the `users` collection. -/
theorem C7_referential_integrity :
    (∀ now : Nat → Int, ∀ pair ∈ demoPairs now,
      (pair.get "users").elems.length = 2 ∧
      (pair.get "users").elems = demoUsers.map (fun user => user.get "uid") ∧
      (pair.get "items").elems.length = 6 ∧
      ∀ item ∈ (pair.get "items").elems, item.get "addedBy" ∈ (pair.get "users").elems) ∧
    (∀ (x : Externals) (w : World) (r : Response),
      (run x ⟨"GET"⟩ w).1 = .ok r → r.status = 200 →
      ∃ pair, ((run x ⟨"GET"⟩ w).2.db "pairs").lookup "giash_rina_home" = some pair ∧
        (pair.get "users").elems.length = 2 ∧
        ∀ uid ∈ (pair.get "users").elems,
          ∃ user, ((run x ⟨"GET"⟩ w).2.db "users").lookup uid.toStr = some user ∧
            user.get "uid" = uid) := by
  constructor
  · intro now pair hpair
    simp only [demoPairs, List.mem_singleton] at hpair
    subst hpair
    simp [giashRinaHome, demoItems, demoUsers, giash, rina, Value.get, Value.elems, List.lookup]
  · intro x w r h hs
    obtain ⟨sa, pre, -, -, -, -, -, -, hdb, -⟩ := run_get_success x w r h (Or.inl hs)
    refine ⟨giashRinaHome x.now, by simp [hdb, lookup_seeded], ?_, ?_⟩
    · simp [giashRinaHome, Value.get, Value.elems, List.lookup]
    · intro uid huid
      simp [giashRinaHome, Value.get, Value.elems, List.lookup] at huid
      rcases huid with rfl | rfl
      · exact ⟨giash, by simp [hdb, lookup_seeded, Value.toStr],
          by simp [giash, Value.get, List.lookup]⟩
      · exact ⟨rina, by simp [hdb, lookup_seeded, Value.toStr],
          by simp [rina, Value.get, List.lookup]⟩

theorem C7_referential_integrity_witness :
    ∃ pair, ((run Sample.externals ⟨"GET"⟩ Sample.world).2.db "pairs").lookup
        "giash_rina_home" = some pair ∧
      (pair.get "users").elems.length = 2 ∧
      ∀ uid ∈ (pair.get "users").elems,
        ∃ user, ((run Sample.externals ⟨"GET"⟩ Sample.world).2.db "users").lookup
          uid.toStr = some user ∧ user.get "uid" = uid :=
  C7_referential_integrity.2 Sample.externals Sample.world _ Sample.run_ok rfl

/-- Claim C8.  Every `GET` run whose response is marked successful, by its status 200 or by
`success: true`, has both marks, and its `data.demo` block reports `items` equal to 6 and
`inviteCode` equal to `'729463'`.  These fixed values agree with what was seeded: the
document stored at `pairs/giash_rina_home` in the final database has six items and the
invite code `'729463'`, and for each entry of `data.demo.users` the document stored in
`users` under the entry's `uid` has the entry's `name`, `email` and `uid`; the entries are
those of the two catalog users in catalog order. -/
theorem C8_success_report (x : Externals) (w : World) (r : Response)
    (h : (run x ⟨"GET"⟩ w).1 = .ok r)
    (hs : r.status = 200 ∨ ∃ b, r.body = some b ∧ b.get "success" = .bool true) :
    r.status = 200 ∧
    ∃ body, r.body = some body ∧ body.get "success" = .bool true ∧
      ((body.get "data").get "demo").get "items" = .num 6 ∧
      ((body.get "data").get "demo").get "inviteCode" = .str "729463" ∧
      (∃ pair, ((run x ⟨"GET"⟩ w).2.db "pairs").lookup "giash_rina_home" = some pair ∧
        (pair.get "items").length = ((body.get "data").get "demo").get "items" ∧
        (pair.get "items").elems.length = 6 ∧
        pair.get "inviteCode" = ((body.get "data").get "demo").get "inviteCode") ∧
      ((((body.get "data").get "demo").get "users").elems.length = 2 ∧
        ∀ entry ∈ (((body.get "data").get "demo").get "users").elems,
          ∃ user, ((run x ⟨"GET"⟩ w).2.db "users").lookup (entry.get "uid").toStr =
              some user ∧
            user.get "name" = entry.get "name" ∧ user.get "email" = entry.get "email" ∧
            user.get "uid" = entry.get "uid") ∧
      (∀ pair ∈ demoPairs x.now,
        (pair.get "items").length = ((body.get "data").get "demo").get "items" ∧
        (pair.get "items").elems.length = 6 ∧
        pair.get "inviteCode" = ((body.get "data").get "demo").get "inviteCode") ∧
      ((body.get "data").get "demo").get "users" =
        .arr (demoUsers.map fun user =>
          .obj [("name", user.get "name"), ("email", user.get "email"),
            ("uid", user.get "uid")]) := by
  obtain ⟨sa, pre, -, -, -, -, -, hr, hdb, -⟩ := run_get_success x w r h hs
  subst hr
  rw [hdb]
  refine ⟨rfl, _, rfl, ?_, ?_, ?_, ?_, ?_, ?_, ?_⟩
  · simp [Value.get, List.lookup]
  · simp [Value.get, List.lookup]
  · simp [Value.get, List.lookup]
  · refine ⟨giashRinaHome x.now, by simp [lookup_seeded], ?_⟩
    simp [giashRinaHome, demoItems, Value.get, Value.length, Value.elems, List.lookup]
  · refine ⟨by simp [Value.get, Value.elems, List.lookup], ?_⟩
    intro entry hentry
    simp [Value.get, Value.elems, List.lookup] at hentry
    rcases hentry with h1 | h1 <;> subst h1
    · exact ⟨giash, by simp [lookup_seeded, Value.get, List.lookup, Value.toStr],
        by simp [giash, Value.get, List.lookup]⟩
    · exact ⟨rina, by simp [lookup_seeded, Value.get, List.lookup, Value.toStr],
        by simp [rina, Value.get, List.lookup]⟩
  · intro pair hpair
    simp only [demoPairs, List.mem_singleton] at hpair
    subst hpair
    simp [giashRinaHome, demoItems, Value.get, Value.length, Value.elems, List.lookup]
  · simp [demoUsers, giash, rina, Value.get, List.lookup]

theorem C8_success_report_witness :
    ∃ r, (run Sample.externals ⟨"GET"⟩ Sample.populated).1 = .ok r ∧ r.status = 200 ∧
      ∃ body, r.body = some body ∧ ((body.get "data").get "demo").get "items" = .num 6 ∧
        ∃ pair, ((run Sample.externals ⟨"GET"⟩ Sample.populated).2.db "pairs").lookup
            "giash_rina_home" = some pair ∧
          (pair.get "items").length = ((body.get "data").get "demo").get "items" := by
  obtain ⟨hst, body, hb, -, hitems, -, ⟨pair, hpair, hlen, -⟩, -⟩ :=
    C8_success_report Sample.externals Sample.populated _ Sample.populated_run_ok (Or.inl rfl)
  exact ⟨_, Sample.populated_run_ok, hst, body, hb, hitems, pair, hpair, hlen⟩

/-- Claim C9. In every `GET` run that ends in the success response, `data.users` and
`data.pairs` are the numbers of documents of the whole `users` and `pairs` collections
after seeding: the number of distinct identifiers among those of the initial collection and
the fixture identifiers of that collection.  Hence `data.users` is at least 2 and
`data.pairs` at least 1.  No value of the counts makes the run fail: started from any other
database, the same run ends in the success response too. -/
theorem C9_global_counts (x : Externals) (w : World) (r : Response)
    (h : (run x ⟨"GET"⟩ w).1 = .ok r) (hs : r.status = 200) :
    (∃ body, r.body = some body ∧
      (body.get "data").get "users" = .num ((run x ⟨"GET"⟩ w).2.db.size "users") ∧
      (body.get "data").get "pairs" = .num ((run x ⟨"GET"⟩ w).2.db.size "pairs")) ∧
    (run x ⟨"GET"⟩ w).2.db.size "users" =
      ((w.db "users").keys ∪ {"giash_uid", "rina_uid"}).card ∧
    (run x ⟨"GET"⟩ w).2.db.size "pairs" = ((w.db "pairs").keys ∪ {"giash_rina_home"}).card ∧
    2 ≤ (run x ⟨"GET"⟩ w).2.db.size "users" ∧ 1 ≤ (run x ⟨"GET"⟩ w).2.db.size "pairs" ∧
    (∀ db : Database, ∃ r1, (run x ⟨"GET"⟩ { w with db := db }).1 = .ok r1 ∧
      r1.status = 200) := by
  obtain ⟨sa, pre, hcred, -, -, hw, hc, hr, hdb, -⟩ := run_get_success x w r h (Or.inl hs)
  have hu : (seeded x.now w.db).size "users" =
      ((w.db "users").keys ∪ {"giash_uid", "rina_uid"}).card := by
    simp only [Database.size, users_seeded]
  have hp : (seeded x.now w.db).size "pairs" =
      ((w.db "pairs").keys ∪ {"giash_rina_home"}).card := by
    simp only [Database.size, pairs_seeded]
  have hsub2 : ({"giash_uid", "rina_uid"} : Finset String) ⊆
      (w.db "users").keys ∪ {"giash_uid", "rina_uid"} := Finset.subset_union_right
  have hsub1 : ({"giash_rina_home"} : Finset String) ⊆
      (w.db "pairs").keys ∪ {"giash_rina_home"} := Finset.subset_union_right
  have hc2 : ({"giash_uid", "rina_uid"} : Finset String).card = 2 := by decide
  have hc1 : ({"giash_rina_home"} : Finset String).card = 1 := by decide
  rw [hdb]
  refine ⟨?_, hu, hp, ?_, ?_, ?_⟩
  · subst hr
    exact ⟨_, rfl, by simp [Value.get, List.lookup], by simp [Value.get, List.lookup]⟩
  · rw [hu, ← hc2]
    exact Finset.card_le_card hsub2
  · rw [hp, ← hc1]
    exact Finset.card_le_card hsub1
  · intro db
    have hcred2 : UsableCredential x { w with db := db } sa := hcred
    obtain ⟨pre2, -, -, hres, -⟩ := run_get_ok x { w with db := db } sa hcred2 hw hc
    exact ⟨_, hres, rfl⟩

theorem C9_global_counts_witness :
    (run Sample.externals ⟨"GET"⟩ Sample.populated).2.db.size "users" = 3 ∧
      (run Sample.externals ⟨"GET"⟩ Sample.populated).2.db.size "pairs" = 1 := by
  have h := C9_global_counts Sample.externals Sample.populated _ Sample.populated_run_ok rfl
  refine ⟨?_, ?_⟩
  · rw [h.2.1]
    decide
  · rw [h.2.2.1]
    decide

/-- Claim C10. When the twelve successive `Date.now()` readings that build the catalog are
non-decreasing, each of the six items has a quantity that is a positive integer, has its
commerce fields `link`, `image` and `price` all three present or all three absent, and has
an update timestamp not earlier than its creation timestamp; and the six identifiers are
pairwise different. -/
theorem C10_item_invariants (now : Nat → Int) (hclock : ∀ i, i < 11 → now i ≤ now (i + 1)) :
    (demoItems now).length = 6 ∧
    (∀ item ∈ demoItems now,
      (∃ qty : Int, item.get "qty" = .num qty ∧ 0 < qty) ∧
      (item.has "link" = item.has "image" ∧ item.has "image" = item.has "price") ∧
      (∃ created updated : Int, item.get "createdAt" = .num created ∧
        item.get "updatedAt" = .num updated ∧ created ≤ updated)) ∧
    ((demoItems now).map (fun item => item.get "id")).Nodup := by
  have h0 := hclock 0 (by decide)
  have h2 := hclock 2 (by decide)
  have h4 := hclock 4 (by decide)
  have h6 := hclock 6 (by decide)
  have h8 := hclock 8 (by decide)
  have h10 := hclock 10 (by decide)
  simp only [Nat.reduceAdd] at h0 h2 h4 h6 h8 h10
  refine ⟨rfl, ?_, ?_⟩
  · intro item hitem
    simp only [demoItems, List.mem_cons, List.mem_singleton, List.not_mem_nil, or_false] at hitem
    rcases hitem with rfl | rfl | rfl | rfl | rfl | rfl <;>
      simp [Value.get, Value.has, List.lookup] <;> omega
  · simp [demoItems, Value.get, List.lookup]

theorem C10_item_invariants_witness :
    ((demoItems (fun i => 1700000000000 + i)).map (fun item => item.get "id")).Nodup :=
  (C10_item_invariants (fun i => 1700000000000 + i) (fun i _ => by simp)).2.2

end Shukku
